import Mathlib

/-!
WiFiManager connection lifecycle (sandBot-v2 firmware)

A shallow embedding of `PlatformIO/lib/RdWiFiManager/WiFiManager.{h,cpp}`.

* The object state is the record `WiFiManager`; the static members
  `_hostname`, `_pStatusLed` and `_pInstance` are fields of the same record
  (the firmware creates a single instance).
* Every method is a function from the state before the call to the state
  after it together with the list of calls it made on the external
  collaborators (`Effect`), in program order.  Log output is left out.
* `millis()` is read once per call: the parameter `now`.  `WiFi.status()` is
  the parameter `status`.  Millisecond timestamps are natural numbers; the
  wrap-around of the 32-bit counter after 49.7 days is outside the model.
* `_connectionFailures` is a C++ `int`, embedded as `Int`.
* Pointers are embedded by their null-ness (`Bool`); a call that dereferences
  a null pointer has no result (`none`).
* `ConfigBase`, `FileManager` and `RdJson::getString` are outside these
  sources: their lookups are parameters.  Where a persisted document has to
  be judged as JSON, the reader `Json.readObject` follows RFC 8259.
-/

/-- Driver link status `wl_status_t` of the Arduino WiFi library. -/
inductive wl_status_t
  | WL_NO_SHIELD
  | WL_IDLE_STATUS
  | WL_NO_SSID_AVAIL
  | WL_SCAN_COMPLETED
  | WL_CONNECTED
  | WL_CONNECT_FAILED
  | WL_CONNECTION_LOST
  | WL_DISCONNECTED
  deriving DecidableEq, Repr

/-- Driver events `WiFiEvent_t`; `other` stands for every event code that
`wiFiEventHandler` sends to its `default:` branch. -/
inductive WiFiEvent_t
  | SYSTEM_EVENT_STA_GOT_IP
  | SYSTEM_EVENT_STA_DISCONNECTED
  | other (code : Nat)
  deriving DecidableEq, Repr

/-- Radio mode `wifi_mode_t`, as far as the manager uses it. -/
inductive wifi_mode_t
  | WIFI_STA
  | WIFI_AP
  deriving DecidableEq, Repr

/-- Calls made on the external collaborators (radio driver, captive-portal
DNS server, status LED, credential store, mDNS responder, SoC). -/
inductive Effect
  | wifiOnEvent
  | wifiMode (m : wifi_mode_t)
  | wifiBegin (ssid pw : String)
  | wifiSetHostname (hostname : String)
  | wifiDisconnect
  | wifiReconnect
  | wifiSoftAP (ssid pw : String)
  | dnsStart
  | dnsStop
  | dnsProcessNextRequest
  | statusLedSetCode (code : Nat)
  | setConfigData (doc : String)
  | writeConfig
  | mdnsBegin (hostname : String)
  | mdnsAddService
  | espRestart
  deriving DecidableEq, Repr

/-- The two lookups of `ConfigBase` that the manager calls; the class itself is
outside these sources, so its lookups are parameters. -/
structure ConfigBase where
  getLong : String → Int → Int
  getString : String → String → String

/-- The two members of `FileManager` that the manager calls; the class itself
is outside these sources. -/
structure FileManager where
  isSDCardOk : Bool
  getFileContents : String → String → Nat → String

/-- Modelled from the spec: `Utils::isTimeout(curTime, lastTime, maxDuration)`
is called by the manager but defined outside these sources.  It holds when
more than `maxDuration` milliseconds have elapsed since `lastTime`. -/
def Utils.isTimeout (curTime lastTime maxDuration : Nat) : Bool :=
  decide (lastTime + maxDuration < curTime)

/-- Data members of `class WiFiManager` (WiFiManager.h, lines 16-42). -/
structure WiFiManager where
  _wifiEnabled : Bool
  _ssid : String
  _password : String
  _hostname : String
  _defaultHostname : String
  _lastWifiBeginAttemptMs : Nat
  _wifiFirstBeginDone : Bool
  _pConfigBase : Bool
  _pStatusLed : Bool
  _pInstance : Bool
  _deviceRestartPending : Bool
  _deviceRestartMs : Nat
  _portalMode : Bool
  _portalStartTime : Nat
  _connectionFailures : Int
  _apSSID : String
  _connectionAttemptStartTime : Nat
  deriving DecidableEq, Repr

namespace WiFiManager

def TIME_BETWEEN_WIFI_BEGIN_ATTEMPTS_MS : Nat := 60000

def TIME_BEFORE_FIRST_BEGIN_MS : Nat := 2000

def DEVICE_RESTART_DELAY_MS : Nat := 1000

def MAX_CONNECTION_FAILURES : Int := 3

def PORTAL_TIMEOUT_MS : Nat := 0

def CONNECTION_TIMEOUT_MS : Nat := 30000

/-- The constructor `WiFiManager()` (WiFiManager.h, lines 45-59); the `String`
members start empty and the static `_pInstance` starts `NULL`. -/
def new : WiFiManager :=
  { _wifiEnabled := false
    _ssid := ""
    _password := ""
    _hostname := ""
    _defaultHostname := ""
    _lastWifiBeginAttemptMs := 0
    _wifiFirstBeginDone := false
    _pConfigBase := false
    _pStatusLed := false
    _pInstance := false
    _deviceRestartPending := false
    _deviceRestartMs := 0
    _portalMode := false
    _portalStartTime := 0
    _connectionFailures := 0
    _apSSID := ""
    _connectionAttemptStartTime := 0 }

/-- `WiFiManager::setup` (lines 30-67).  `macAddress` is `WiFi.macAddress()`;
`replace(":", "")` keeps the characters other than the colon and
`substring(6)` drops the first six of them.
`pSysConfig` is dereferenced unchecked, so a null pointer gives no result. -/
def setup (hwConfig : ConfigBase) (pSysConfig : Option ConfigBase)
    (defaultHostname : String) (pStatusLed : Bool) (macAddress : String)
    (s : WiFiManager) : Option (WiFiManager × List Effect) :=
  match pSysConfig with
  | none => none
  | some sysConfig =>
    let wifiEnabled : Bool := hwConfig.getLong "wifiEnabled" 0 != 0
    some
      ({ s with
          _wifiEnabled := wifiEnabled
          _pConfigBase := true
          _defaultHostname := defaultHostname
          _pStatusLed := pStatusLed
          _pInstance := true
          _ssid := sysConfig.getString "WiFiSSID" ""
          _password := sysConfig.getString "WiFiPW" ""
          _hostname := sysConfig.getString "WiFiHostname" defaultHostname
          _connectionFailures := 0
          _connectionAttemptStartTime := 0
          _lastWifiBeginAttemptMs := 0
          _apSSID := "sandBot-" ++ String.mk ((macAddress.data.filter (fun c => c != ':')).drop 6) },
        if wifiEnabled then [Effect.wifiOnEvent, Effect.wifiMode wifi_mode_t.WIFI_STA] else [])

/-- `WiFiManager::formConfigStr` (lines 152-155). -/
def formConfigStr (s : WiFiManager) : String :=
  "\x7b\"WiFiSSID\":\"" ++ s._ssid ++ "\",\"WiFiPW\":\"" ++ s._password
    ++ "\",\"WiFiHostname\":\"" ++ s._hostname ++ "\"\x7d"

/-- `WiFiManager::startPortalMode` (lines 370-397). -/
def startPortalMode (now : Nat) (s : WiFiManager) : WiFiManager × List Effect :=
  if s._portalMode then (s, [])
  else
    ({ s with _portalMode := true, _portalStartTime := now },
      [Effect.wifiDisconnect, Effect.wifiMode wifi_mode_t.WIFI_AP,
        Effect.wifiSoftAP s._apSSID "SecureThis", Effect.dnsStart]
        ++ (if s._pStatusLed then [Effect.statusLedSetCode 2] else []))

/-- `WiFiManager::stopPortalMode` (lines 399-418). -/
def stopPortalMode (s : WiFiManager) : WiFiManager × List Effect :=
  if !s._portalMode then (s, [])
  else
    ({ s with _portalMode := false, _connectionFailures := 0 },
      [Effect.dnsStop, Effect.wifiMode wifi_mode_t.WIFI_STA]
        ++ (if s._pStatusLed then [Effect.statusLedSetCode 0] else []))

/-- The timeout test of `service` (lines 104-105): an attempt is outstanding
and older than `CONNECTION_TIMEOUT_MS`. -/
def attemptTimedOut (now : Nat) (s : WiFiManager) : Bool :=
  decide (s._connectionAttemptStartTime > 0)
    && Utils.isTimeout now s._connectionAttemptStartTime CONNECTION_TIMEOUT_MS

/-- `WiFiManager::service` (lines 69-145).  `ESP.restart()` does not return,
so the call ends there. -/
def service (now : Nat) (status : wl_status_t) (s : WiFiManager) :
    WiFiManager × List Effect :=
  if !s._wifiEnabled then (s, [])
  else if s._deviceRestartPending
      && Utils.isTimeout now s._deviceRestartMs DEVICE_RESTART_DELAY_MS then
    ({ s with _deviceRestartPending := false }, [Effect.espRestart])
  else if s._portalMode then
    if decide (PORTAL_TIMEOUT_MS > 0)
        && Utils.isTimeout now s._portalStartTime PORTAL_TIMEOUT_MS then
      ((stopPortalMode s).1, Effect.dnsProcessNextRequest :: (stopPortalMode s).2)
    else (s, [Effect.dnsProcessNextRequest])
  else if status != wl_status_t.WL_CONNECTED then
    let timedOut : Bool := attemptTimedOut now s
    let s1 : WiFiManager :=
      if timedOut then
        { s with
            _connectionFailures := s._connectionFailures + 1
            _connectionAttemptStartTime := 0 }
      else s
    if timedOut && decide (s1._connectionFailures ≥ MAX_CONNECTION_FAILURES) then
      startPortalMode now s1
    else if Utils.isTimeout now s1._lastWifiBeginAttemptMs
        (if s1._wifiFirstBeginDone then TIME_BETWEEN_WIFI_BEGIN_ATTEMPTS_MS
          else TIME_BEFORE_FIRST_BEGIN_MS) then
      if s1._ssid.length == 0 then startPortalMode now s1
      else
        ({ s1 with
            _lastWifiBeginAttemptMs := now
            _connectionAttemptStartTime := now
            _wifiFirstBeginDone := true },
          [Effect.wifiBegin s1._ssid s1._password, Effect.wifiSetHostname s1._hostname])
    else (s1, [])
  else ({ s with _connectionFailures := 0, _connectionAttemptStartTime := 0 }, [])

/-- The persistence block `if (_pConfigBase) ...` shared by `setCredentials`,
`clearCredentials` and `loadNetworkConfigFromSD` (lines 166-170, 195-200,
474-478). -/
def persistConfig (s : WiFiManager) : List Effect :=
  if s._pConfigBase then [Effect.setConfigData (formConfigStr s), Effect.writeConfig] else []

/-- `WiFiManager::setCredentials` (lines 157-187). -/
def setCredentials (ssid pw hostname : String) (resetToImplement : Bool) (now : Nat)
    (s : WiFiManager) : WiFiManager × List Effect :=
  let s1 : WiFiManager :=
    { s with
        _ssid := ssid
        _password := pw
        _hostname := if hostname.length == 0 then s._hostname else hostname }
  let e1 := persistConfig s1
  let r2 := if s1._portalMode then stopPortalMode s1 else (s1, [])
  let s3 : WiFiManager :=
    if resetToImplement then
      { r2.1 with _deviceRestartPending := true, _deviceRestartMs := now }
    else r2.1
  (s3, e1 ++ r2.2)

/-- `WiFiManager::clearCredentials` (lines 189-210). -/
def clearCredentials (now : Nat) (s : WiFiManager) : WiFiManager × List Effect :=
  let s1 : WiFiManager :=
    { s with _ssid := "", _password := "", _hostname := s._defaultHostname }
  let e1 := persistConfig s1
  let s2 : WiFiManager :=
    { s1 with _connectionFailures := 0, _connectionAttemptStartTime := 0 }
  let r3 := startPortalMode now s2
  (r3.1, e1 ++ [Effect.wifiDisconnect] ++ r3.2)

/-- The end of the `SYSTEM_EVENT_STA_DISCONNECTED` case of `wiFiEventHandler`
(lines 310-315): `_pInstance->_portalMode` is read unchecked. -/
def reconnectAndReport (s : WiFiManager) : Option (WiFiManager × List Effect) :=
  if !s._pInstance then none
  else
    some (s,
      (if !s._portalMode then [Effect.wifiReconnect] else [])
        ++ (if s._pStatusLed then [Effect.statusLedSetCode 0] else []))

/-- The classification `switch (status)` of `wiFiEventHandler` (lines 253-292):
the value of `shouldCountFailure`. -/
def shouldCountFailure (status : wl_status_t) (now : Nat) (s : WiFiManager) : Bool :=
  match status with
  | wl_status_t.WL_NO_SSID_AVAIL => true
  | wl_status_t.WL_CONNECT_FAILED => true
  | wl_status_t.WL_CONNECTION_LOST => false
  | wl_status_t.WL_DISCONNECTED =>
    decide (s._connectionAttemptStartTime > 0)
      && Utils.isTimeout now s._connectionAttemptStartTime 5000
  | _ =>
    decide (s._connectionAttemptStartTime > 0)
      && Utils.isTimeout now s._connectionAttemptStartTime 5000

/-- `WiFiManager::wiFiEventHandler` (lines 212-323).  `status` is
`WiFi.status()` and `mdnsOk` the result of `MDNS.begin`. -/
def wiFiEventHandler (event : WiFiEvent_t) (status : wl_status_t) (now : Nat)
    (mdnsOk : Bool) (s : WiFiManager) : Option (WiFiManager × List Effect) :=
  match event with
  | WiFiEvent_t.SYSTEM_EVENT_STA_GOT_IP =>
    some
      (if s._pInstance then
          { s with _connectionFailures := 0, _connectionAttemptStartTime := 0 }
        else s,
        (if s._pStatusLed then [Effect.statusLedSetCode 1] else [])
          ++ [Effect.mdnsBegin s._hostname]
          ++ (if mdnsOk then [Effect.mdnsAddService] else []))
  | WiFiEvent_t.SYSTEM_EVENT_STA_DISCONNECTED =>
    if s._pInstance && !s._portalMode then
      if shouldCountFailure status now s then
        let s1 : WiFiManager :=
          { s with
              _connectionFailures := s._connectionFailures + 1
              _connectionAttemptStartTime := 0 }
        if s1._connectionFailures ≥ MAX_CONNECTION_FAILURES then
          some (startPortalMode now s1)
        else reconnectAndReport s1
      else reconnectAndReport s
    else reconnectAndReport s
  | WiFiEvent_t.other _ => some (s, [])

/-- Arduino `String::toLowerCase` (line 454): every character through
`tolower`. -/
def toLowerCase (str : String) : String :=
  String.mk (str.data.map Char.toLower)

/-- `WiFiManager::loadNetworkConfigFromSD` (lines 432-514).  `RdJson::getString`
is outside these sources and is the parameter `rdJsonGetString`
(data path, default, document). -/
def loadNetworkConfigFromSD (rdJsonGetString : String → String → String → String)
    (fileManager : FileManager) (now : Nat) (s : WiFiManager) :
    Bool × WiFiManager × List Effect :=
  if !fileManager.isSDCardOk then (false, s, [])
  else
    let networkFileContents := fileManager.getFileContents "sd" ".network" 2048
    if networkFileContents.length == 0 then (false, s, [])
    else
      let wifiMode := toLowerCase (rdJsonGetString "wifi" "" networkFileContents)
      if wifiMode == "yes" then
        let sdSSID := rdJsonGetString "WiFiSSID" "" networkFileContents
        let sdPassword := rdJsonGetString "WiFiPW" "" networkFileContents
        let sdHostname := rdJsonGetString "WiFiHostname" "" networkFileContents
        if sdSSID.length > 0 then
          let s1 : WiFiManager :=
            { s with
                _ssid := sdSSID
                _password := sdPassword
                _hostname := if sdHostname.length > 0 then sdHostname else s._hostname }
          let e1 := persistConfig s1
          let r2 := if s1._portalMode then stopPortalMode s1 else (s1, [])
          (true,
            { r2.1 with
                _connectionFailures := 0
                _connectionAttemptStartTime := 0
                _lastWifiBeginAttemptMs := 0
                _wifiFirstBeginDone := false },
            e1 ++ r2.2)
        else (false, s, [])
      else if wifiMode == "ap" then
        (true, (clearCredentials now s).1, (clearCredentials now s).2)
      else (false, s, [])

end WiFiManager

/-- One call on the manager, with the inputs it reads from its environment. -/
inductive Call
  | service (now : Nat) (status : wl_status_t)
  | wiFiEventHandler (event : WiFiEvent_t) (status : wl_status_t) (now : Nat) (mdnsOk : Bool)
  | setCredentials (ssid pw hostname : String) (resetToImplement : Bool) (now : Nat)
  | clearCredentials (now : Nat)
  | startPortalMode (now : Nat)
  | stopPortalMode
  | loadNetworkConfigFromSD (rdJsonGetString : String → String → String → String)
      (fileManager : FileManager) (now : Nat)

namespace WiFiManager

/-- The state and effects of one call. -/
def step (c : Call) (s : WiFiManager) : Option (WiFiManager × List Effect) :=
  match c with
  | Call.service now status => some (service now status s)
  | Call.wiFiEventHandler event status now mdnsOk =>
    wiFiEventHandler event status now mdnsOk s
  | Call.setCredentials ssid pw hostname resetToImplement now =>
    some (setCredentials ssid pw hostname resetToImplement now s)
  | Call.clearCredentials now => some (clearCredentials now s)
  | Call.startPortalMode now => some (startPortalMode now s)
  | Call.stopPortalMode => some (stopPortalMode s)
  | Call.loadNetworkConfigFromSD rdJsonGetString fileManager now =>
    some (loadNetworkConfigFromSD rdJsonGetString fileManager now s).2

/-- The state of the running instance after a sequence of calls, first call
first.  The reset that follows a call of `ESP.restart()` is not part of it:
see `deviceRun`. -/
def run : List Call → WiFiManager → Option WiFiManager
  | [], s => some s
  | c :: cs, s =>
    match step c s with
    | none => none
    | some r => run cs r.1

end WiFiManager

namespace WiFiManager

/-- The failure count lies between 0 and the threshold, and a count at the
threshold is only found in portal mode. -/
def FailureInvariant (s : WiFiManager) : Prop :=
  0 ≤ s._connectionFailures ∧ s._connectionFailures ≤ MAX_CONNECTION_FAILURES
    ∧ (MAX_CONNECTION_FAILURES ≤ s._connectionFailures → s._portalMode = true)

/-- A run of `service` calls only, each with its time and driver status. -/
def serviceRun : List (Nat × wl_status_t) → WiFiManager → WiFiManager
  | [], s => s
  | t :: ts, s => serviceRun ts (service t.1 t.2 s).1

/-- Whether a `service` call reaches the timeout test of lines 104-105 and
finds the outstanding attempt timed out. -/
def detectsTimeout (now : Nat) (status : wl_status_t) (s : WiFiManager) : Bool :=
  s._wifiEnabled
    && !(s._deviceRestartPending
          && Utils.isTimeout now s._deviceRestartMs DEVICE_RESTART_DELAY_MS)
    && !s._portalMode
    && (status != wl_status_t.WL_CONNECTED)
    && attemptTimedOut now s

/-- The number of attempt timeouts detected along a run of `service` calls. -/
def timeoutsDetected : List (Nat × wl_status_t) → WiFiManager → Nat
  | [], _ => 0
  | t :: ts, s =>
    (if detectsTimeout t.1 t.2 s then 1 else 0) + timeoutsDetected ts (service t.1 t.2 s).1

/-- A hardware configuration with `wifiEnabled` set. -/
def exampleHwConfig : ConfigBase :=
  { getLong := fun _ _ => 1, getString := fun _ d => d }

/-- A system configuration that stores the SSID `home` and nothing else. -/
def exampleSysConfig : ConfigBase :=
  { getLong := fun _ d => d
    getString := fun key d => if key == "WiFiSSID" then "home" else d }

/-- A system configuration that stores nothing. -/
def emptySysConfig : ConfigBase :=
  { getLong := fun _ d => d, getString := fun _ d => d }

/-- The state after `setup` with `exampleHwConfig`, `exampleSysConfig`, default
hostname `sandBot`, a status LED and MAC address `AA:BB:CC:DD:EE:FF`. -/
def exampleStart : WiFiManager :=
  { _wifiEnabled := true
    _ssid := "home"
    _password := ""
    _hostname := "sandBot"
    _defaultHostname := "sandBot"
    _lastWifiBeginAttemptMs := 0
    _wifiFirstBeginDone := false
    _pConfigBase := true
    _pStatusLed := true
    _pInstance := true
    _deviceRestartPending := false
    _deviceRestartMs := 0
    _portalMode := false
    _portalStartTime := 0
    _connectionFailures := 0
    _apSSID := "sandBot-DDEEFF"
    _connectionAttemptStartTime := 0 }

/-- One connection attempt followed by three "SSID not found" disconnects. -/
def exampleEventCalls : List Call :=
  [Call.service 2001 wl_status_t.WL_DISCONNECTED,
    Call.wiFiEventHandler WiFiEvent_t.SYSTEM_EVENT_STA_DISCONNECTED
      wl_status_t.WL_NO_SSID_AVAIL 2100 false,
    Call.wiFiEventHandler WiFiEvent_t.SYSTEM_EVENT_STA_DISCONNECTED
      wl_status_t.WL_NO_SSID_AVAIL 2200 false,
    Call.wiFiEventHandler WiFiEvent_t.SYSTEM_EVENT_STA_DISCONNECTED
      wl_status_t.WL_NO_SSID_AVAIL 2300 false]

/-- The state after `exampleEventCalls` from `exampleStart`. -/
def exampleAfterEvents : WiFiManager :=
  { exampleStart with
    _lastWifiBeginAttemptMs := 2001
    _wifiFirstBeginDone := true
    _portalMode := true
    _portalStartTime := 2300
    _connectionFailures := 3 }

/-- The state after `setup` as for `exampleStart` but with `emptySysConfig`. -/
def emptyStart : WiFiManager :=
  { exampleStart with _ssid := "" }

/-- The state after the first connection attempt, `service` at 2001 ms from
`exampleStart`. -/
def exampleAttempting : WiFiManager :=
  { exampleStart with
    _lastWifiBeginAttemptMs := 2001
    _wifiFirstBeginDone := true
    _connectionAttemptStartTime := 2001 }

/-- Six `service` calls with the link down: three attempts, each timing out. -/
def exampleTimeoutTicks : List (Nat × wl_status_t) :=
  [(2001, wl_status_t.WL_DISCONNECTED), (32002, wl_status_t.WL_DISCONNECTED),
    (62002, wl_status_t.WL_IDLE_STATUS), (92003, wl_status_t.WL_DISCONNECTED),
    (122003, wl_status_t.WL_DISCONNECTED), (152004, wl_status_t.WL_DISCONNECTED)]

/-- The states of a link-down, events-free run in which `c` attempt timeouts
have been detected: out of portal mode the failure count is `c`, below the
threshold; in portal mode `c` is the threshold. -/
def EscalationInvariant (c : Nat) (s : WiFiManager) : Prop :=
  s._wifiEnabled = true ∧ s._deviceRestartPending = false ∧ s._ssid.length ≠ 0
    ∧ ((s._portalMode = false ∧ s._connectionFailures = c ∧ c < 3)
      ∨ (s._portalMode = true ∧ c = 3))

/-- The state after two counted failures: `exampleStart` after the first three
calls of `exampleEventCalls`. -/
def exampleTwoFailures : WiFiManager :=
  { exampleStart with
    _lastWifiBeginAttemptMs := 2001
    _wifiFirstBeginDone := true
    _connectionFailures := 2 }

/-- The state after `setup` as for `emptyStart` but without a status LED. -/
def noLedStart : WiFiManager :=
  { emptyStart with _pStatusLed := false }

/-- The portal-mode state after `service` at 2001 ms from `noLedStart`. -/
def noLedPortal : WiFiManager :=
  { noLedStart with _portalMode := true, _portalStartTime := 2001 }

/-- A hardware configuration that stores nothing, so `wifiEnabled` is 0. -/
def disabledHwConfig : ConfigBase :=
  { getLong := fun _ d => d, getString := fun _ d => d }

/-- The state after `setup` as for `exampleStart` but with `disabledHwConfig`. -/
def disabledStart : WiFiManager :=
  { exampleStart with _wifiEnabled := false }

/-- The state after `setCredentials("cafe", "secret", "", true)` at 100 ms from
`disabledStart`. -/
def disabledPending : WiFiManager :=
  { disabledStart with
    _ssid := "cafe"
    _password := "secret"
    _deviceRestartPending := true
    _deviceRestartMs := 100 }

/-- A mounted SD card whose `.network` file has some content. -/
def exampleFileManager : FileManager :=
  { isSDCardOk := true, getFileContents := fun _ _ _ => "network file" }

/-- A document reader that finds `wifi` = `AP` and nothing else. -/
def exampleRdJsonAp : String → String → String → String :=
  fun key d _ => if key == "wifi" then "AP" else d

/-- A document reader that finds `wifi` = `Yes`, the SSID `cafe`, the password
`secret` and no hostname. -/
def exampleRdJsonYes : String → String → String → String :=
  fun key d _ =>
    if key == "wifi" then "Yes"
    else if key == "WiFiSSID" then "cafe"
    else if key == "WiFiPW" then "secret"
    else d

/-- Whether an effect is a `WiFi.begin` call. -/
def isWifiBegin : Effect → Bool
  | Effect.wifiBegin _ _ => true
  | _ => false

/-- The state after `setCredentials("home", "", "", true)` at 100 ms from
`exampleStart`: a restart is pending. -/
def exampleRestartPending : WiFiManager :=
  { exampleStart with _deviceRestartPending := true, _deviceRestartMs := 100 }

/-- The state after loading the document of `exampleRdJsonYes` from
`exampleStart`. -/
def exampleLoaded : WiFiManager :=
  { exampleStart with _ssid := "cafe", _password := "secret" }

/-- Modelled from the spec: the persisted document is "a JSON object"; its
reader (`RdJson`, behind `ConfigBase::getString`) is outside these sources.
The states of a reader inside a JSON string (RFC 8259, section 7): plain text,
just after a backslash, or inside the four hex digits of a `u` escape. -/
inductive Json.Mode
  | plain
  | escape
  | hex (left value : Nat)

/-- The double quote, the backslash and the two braces. -/
def Json.quote : Char := Char.ofNat 34

def Json.backslash : Char := Char.ofNat 92

def Json.openBrace : Char := Char.ofNat 123

def Json.closeBrace : Char := Char.ofNat 125

/-- Modelled from the spec: the character a two-character JSON escape stands
for. -/
def Json.simpleEscape (c : Char) : Option Char :=
  if c = Json.quote then some Json.quote
  else if c = Json.backslash then some Json.backslash
  else if c = '/' then some '/'
  else if c = 'b' then some (Char.ofNat 8)
  else if c = 'f' then some (Char.ofNat 12)
  else if c = 'n' then some (Char.ofNat 10)
  else if c = 'r' then some (Char.ofNat 13)
  else if c = 't' then some (Char.ofNat 9)
  else none

/-- Modelled from the spec: the value of a hexadecimal digit. -/
def Json.hexDigit (c : Char) : Option Nat :=
  if 48 ≤ c.toNat ∧ c.toNat ≤ 57 then some (c.toNat - 48)
  else if 97 ≤ c.toNat ∧ c.toNat ≤ 102 then some (c.toNat - 87)
  else if 65 ≤ c.toNat ∧ c.toNat ≤ 70 then some (c.toNat - 55)
  else none

/-- Modelled from the spec: reads a JSON string from just after its opening
quote to its closing quote; the result is the decoded text and the input that
follows.  Unescaped control characters and unknown escapes are refused. -/
def Json.readString : Json.Mode → List Char → Option (List Char × List Char)
  | _, [] => none
  | Json.Mode.plain, c :: rest =>
    if c = Json.quote then some ([], rest)
    else if c = Json.backslash then Json.readString Json.Mode.escape rest
    else if c.toNat < 32 then none
    else (Json.readString Json.Mode.plain rest).map (fun r => (c :: r.1, r.2))
  | Json.Mode.escape, c :: rest =>
    if c = 'u' then Json.readString (Json.Mode.hex 4 0) rest
    else
      match Json.simpleEscape c with
      | none => none
      | some d => (Json.readString Json.Mode.plain rest).map (fun r => (d :: r.1, r.2))
  | Json.Mode.hex left value, c :: rest =>
    match Json.hexDigit c with
    | none => none
    | some h =>
      if left ≤ 1 then
        (Json.readString Json.Mode.plain rest).map
          (fun r => (Char.ofNat (16 * value + h) :: r.1, r.2))
      else Json.readString (Json.Mode.hex (left - 1) (16 * value + h)) rest

/-- Modelled from the spec: JSON whitespace (space, tab, line feed, carriage
return). -/
def Json.isWhitespace (c : Char) : Bool :=
  c.toNat == 32 || c.toNat == 9 || c.toNat == 10 || c.toNat == 13

/-- Modelled from the spec: skips whitespace, then requires the character `c`;
the result is the input after it. -/
def Json.expect (c : Char) (input : List Char) : Option (List Char) :=
  match input.dropWhile Json.isWhitespace with
  | [] => none
  | d :: rest => if d = c then some rest else none

/-- Modelled from the spec: reads one member `"key":"value"` of an object whose
values are strings; the result is the decoded pair and the input that
follows. -/
def Json.readMember (input : List Char) : Option ((String × String) × List Char) :=
  (Json.expect Json.quote input).bind fun rest =>
    (Json.readString Json.Mode.plain rest).bind fun k =>
      (Json.expect ':' k.2).bind fun rest2 =>
        (Json.expect Json.quote rest2).bind fun rest3 =>
          (Json.readString Json.Mode.plain rest3).bind fun v =>
            some ((String.mk k.1, String.mk v.1), v.2)

/-- Modelled from the spec: reads the members of an object up to its closing
brace and the end of the input; `fuel` bounds the number of members. -/
def Json.readMembers : Nat → List Char → Option (List (String × String))
  | 0, _ => none
  | fuel + 1, input =>
    (Json.readMember input).bind fun m =>
      match Json.expect ',' m.2 with
      | some rest => (Json.readMembers fuel rest).map (fun ms => m.1 :: ms)
      | none =>
        match Json.expect Json.closeBrace m.2 with
        | some rest =>
          if (rest.dropWhile Json.isWhitespace).isEmpty then some [m.1] else none
        | none => none

/-- Modelled from the spec: reads a whole document as a JSON object with string
values; the result is its members in order, or nothing when the document is
not such an object. -/
def Json.readObject (doc : String) : Option (List (String × String)) :=
  (Json.expect Json.openBrace doc.data).bind fun rest =>
    match Json.expect Json.closeBrace rest with
    | some rest1 =>
      if (rest1.dropWhile Json.isWhitespace).isEmpty then some [] else none
    | none => Json.readMembers doc.length rest

/-- Modelled from the spec: a credential store that holds the persisted
document; `getString` returns the value of the key in the stored JSON object
and the default when the key or the object is missing. -/
def storedConfig (doc : String) : ConfigBase :=
  { getLong := fun _ d => d
    getString := fun key d =>
      match Json.readObject doc with
      | none => d
      | some members =>
        match members.lookup key with
        | some v => v
        | none => d }

/-- Whether a character may stand unescaped inside a JSON string. -/
def Json.isPlain (c : Char) : Bool :=
  c != Json.quote && c != Json.backslash && !decide (c.toNat < 32)

/-- The state after `setCredentials` with an SSID that contains a double quote,
from `exampleStart`. -/
def exampleQuotedSsid : WiFiManager :=
  { exampleStart with _ssid := "my\"net", _password := "secret" }

theorem string_length_eq_zero_iff (str : String) : str.length = 0 ↔ str = "" := by
  cases str with
  | mk l =>
    cases l with
    | nil => simp
    | cons c cs =>
      simp only [String.length, List.length_cons]
      constructor
      · intro h
        omega
      · intro h
        exact absurd (congrArg String.data h) (by simp)

theorem failureInvariant_startPortalMode (now : Nat) (s : WiFiManager)
    (h0 : 0 ≤ s._connectionFailures) (h3 : s._connectionFailures ≤ MAX_CONNECTION_FAILURES) :
    FailureInvariant (startPortalMode now s).1 := by
  unfold startPortalMode FailureInvariant
  by_cases hp : s._portalMode = true <;> simp [hp, h0, h3]

theorem failureInvariant_stopPortalMode (s : WiFiManager) (h : FailureInvariant s) :
    FailureInvariant (stopPortalMode s).1 := by
  unfold stopPortalMode
  by_cases hp : s._portalMode = true
  · simp [hp, FailureInvariant, MAX_CONNECTION_FAILURES]
  · simpa [hp] using h

theorem failureInvariant_service (now : Nat) (status : wl_status_t) (s : WiFiManager)
    (h : FailureInvariant s) : FailureInvariant (service now status s).1 := by
  obtain ⟨h0, h3, hp⟩ := h
  unfold service
  by_cases he : s._wifiEnabled = true
  swap
  · simpa [he] using ⟨h0, h3, hp⟩
  by_cases hr : (s._deviceRestartPending
      && Utils.isTimeout now s._deviceRestartMs DEVICE_RESTART_DELAY_MS) = true
  · simp only [he, hr]
    simpa using ⟨h0, h3, hp⟩
  by_cases hpm : s._portalMode = true
  · simp only [he, hr, hpm, PORTAL_TIMEOUT_MS]
    simpa using ⟨h0, h3, hp⟩
  by_cases hs : status = wl_status_t.WL_CONNECTED
  · simp [he, hr, hpm, hs, FailureInvariant, MAX_CONNECTION_FAILURES]
  have hlt : s._connectionFailures < MAX_CONNECTION_FAILURES := by
    by_contra hc
    exact hpm (hp (not_lt.mp hc))
  have hne : (status != wl_status_t.WL_CONNECTED) = true := by simpa using hs
  simp only [he, hr, hpm, hne, Bool.not_true, Bool.false_eq_true, if_false, if_true]
  by_cases ht : attemptTimedOut now s = true
  · simp only [ht, if_true, Bool.true_and]
    split_ifs
    any_goals (apply failureInvariant_startPortalMode <;> simp only [] <;> omega)
    all_goals
      simp only [FailureInvariant, MAX_CONNECTION_FAILURES, decide_eq_true_eq, ge_iff_le] at *
      exact ⟨by omega, by omega, fun h => by omega⟩
  · simp only [ht, Bool.false_eq_true, if_false, Bool.false_and]
    split_ifs
    any_goals (apply failureInvariant_startPortalMode <;> assumption)
    all_goals exact ⟨h0, h3, hp⟩

theorem failureInvariant_setCredentials (ssid pw hostname : String)
    (resetToImplement : Bool) (now : Nat) (s : WiFiManager) (h : FailureInvariant s) :
    FailureInvariant (setCredentials ssid pw hostname resetToImplement now s).1 := by
  obtain ⟨h0, h3, hp⟩ := h
  unfold setCredentials stopPortalMode
  simp only [MAX_CONNECTION_FAILURES] at *
  by_cases hpm : s._portalMode = true
  · cases resetToImplement <;> simp [hpm, FailureInvariant, MAX_CONNECTION_FAILURES]
  · have hlt : s._connectionFailures < 3 := by
      by_contra hc
      exact hpm (hp (not_lt.mp hc))
    cases resetToImplement <;> simp [hpm, FailureInvariant, MAX_CONNECTION_FAILURES] <;> omega

theorem failureInvariant_clearCredentials (now : Nat) (s : WiFiManager) :
    FailureInvariant (clearCredentials now s).1 := by
  unfold clearCredentials
  apply failureInvariant_startPortalMode <;> simp [MAX_CONNECTION_FAILURES]

theorem failureInvariant_loadNetworkConfigFromSD
    (rdJsonGetString : String → String → String → String) (fileManager : FileManager)
    (now : Nat) (s : WiFiManager) (h : FailureInvariant s) :
    FailureInvariant (loadNetworkConfigFromSD rdJsonGetString fileManager now s).2.1 := by
  unfold loadNetworkConfigFromSD
  simp only []
  split_ifs
  all_goals
    first
    | exact h
    | exact failureInvariant_clearCredentials now s
    | simp [FailureInvariant, MAX_CONNECTION_FAILURES]

theorem reconnectAndReport_some (s : WiFiManager) (r : WiFiManager × List Effect)
    (h : reconnectAndReport s = some r) :
    r.1 = s ∧ s._pInstance = true
      ∧ r.2 = (if !s._portalMode then [Effect.wifiReconnect] else [])
          ++ (if s._pStatusLed then [Effect.statusLedSetCode 0] else []) := by
  unfold reconnectAndReport at h
  by_cases hi : s._pInstance = true
  · simp only [hi, Bool.not_true, Bool.false_eq_true, if_false, Option.some.injEq] at h
    subst h
    exact ⟨rfl, hi, rfl⟩
  · simp [hi] at h

theorem failureInvariant_wiFiEventHandler (event : WiFiEvent_t) (status : wl_status_t)
    (now : Nat) (mdnsOk : Bool) (s : WiFiManager) (r : WiFiManager × List Effect)
    (h : FailureInvariant s) (hr : wiFiEventHandler event status now mdnsOk s = some r) :
    FailureInvariant r.1 := by
  obtain ⟨h0, h3, hp⟩ := h
  cases event with
  | SYSTEM_EVENT_STA_GOT_IP =>
    simp only [wiFiEventHandler, Option.some.injEq] at hr
    subst hr
    by_cases hi : s._pInstance = true
    · simp [hi, FailureInvariant, MAX_CONNECTION_FAILURES]
    · simpa [hi] using ⟨h0, h3, hp⟩
  | other code =>
    simp only [wiFiEventHandler, Option.some.injEq] at hr
    subst hr
    exact ⟨h0, h3, hp⟩
  | SYSTEM_EVENT_STA_DISCONNECTED =>
    have hrep : ∀ s1 : WiFiManager, FailureInvariant s1 →
        reconnectAndReport s1 = some r → FailureInvariant r.1 := by
      intro s1 h1 hs1
      rw [(reconnectAndReport_some s1 r hs1).1]
      exact h1
    simp only [wiFiEventHandler] at hr
    split_ifs at hr with hc hcount hmax
    · simp only [Option.some.injEq] at hr
      subst hr
      simp only [Bool.and_eq_true, Bool.not_eq_true', ge_iff_le] at hc hmax
      apply failureInvariant_startPortalMode
      · simp only []; omega
      · have : s._connectionFailures < MAX_CONNECTION_FAILURES := by
          by_contra hcon
          have := hp (not_lt.mp hcon)
          simp [hc.2] at this
        simp only []; omega
    · refine hrep _ ?_ hr
      simp only [ge_iff_le, not_le] at hmax
      simp only [FailureInvariant, MAX_CONNECTION_FAILURES] at *
      exact ⟨by omega, by omega, fun h => by omega⟩
    · exact hrep _ ⟨h0, h3, hp⟩ hr
    · exact hrep _ ⟨h0, h3, hp⟩ hr

theorem failureInvariant_step (c : Call) (s : WiFiManager) (r : WiFiManager × List Effect)
    (h : FailureInvariant s) (hr : step c s = some r) : FailureInvariant r.1 := by
  cases c with
  | service now status =>
    simp only [step, Option.some.injEq] at hr
    subst hr
    exact failureInvariant_service now status s h
  | wiFiEventHandler event status now mdnsOk =>
    exact failureInvariant_wiFiEventHandler event status now mdnsOk s r h hr
  | setCredentials ssid pw hostname resetToImplement now =>
    simp only [step, Option.some.injEq] at hr
    subst hr
    exact failureInvariant_setCredentials ssid pw hostname resetToImplement now s h
  | clearCredentials now =>
    simp only [step, Option.some.injEq] at hr
    subst hr
    exact failureInvariant_clearCredentials now s
  | startPortalMode now =>
    simp only [step, Option.some.injEq] at hr
    subst hr
    exact failureInvariant_startPortalMode now s h.1 h.2.1
  | stopPortalMode =>
    simp only [step, Option.some.injEq] at hr
    subst hr
    exact failureInvariant_stopPortalMode s h
  | loadNetworkConfigFromSD rdJsonGetString fileManager now =>
    simp only [step, Option.some.injEq] at hr
    subst hr
    exact failureInvariant_loadNetworkConfigFromSD rdJsonGetString fileManager now s h

theorem failureInvariant_run (calls : List Call) (s s1 : WiFiManager)
    (h : FailureInvariant s) (hr : run calls s = some s1) : FailureInvariant s1 := by
  induction calls generalizing s with
  | nil =>
    simp only [run, Option.some.injEq] at hr
    subst hr
    exact h
  | cons c cs ih =>
    simp only [run] at hr
    cases hstep : step c s with
    | none => simp [hstep] at hr
    | some r =>
      simp only [hstep] at hr
      exact ih r.1 (failureInvariant_step c s r h hstep) hr

theorem failureInvariant_setup (hwConfig : ConfigBase) (pSysConfig : Option ConfigBase)
    (defaultHostname : String) (pStatusLed : Bool) (macAddress : String)
    (r : WiFiManager × List Effect)
    (hr : setup hwConfig pSysConfig defaultHostname pStatusLed macAddress WiFiManager.new
      = some r) : FailureInvariant r.1 := by
  cases pSysConfig with
  | none => simp [setup] at hr
  | some sysConfig =>
    simp only [setup, Option.some.injEq] at hr
    subst hr
    simp [FailureInvariant, WiFiManager.new, MAX_CONNECTION_FAILURES]

theorem pInstance_startPortalMode (now : Nat) (s : WiFiManager) :
    (startPortalMode now s).1._pInstance = s._pInstance := by
  unfold startPortalMode
  split_ifs <;> rfl

theorem pInstance_stopPortalMode (s : WiFiManager) :
    (stopPortalMode s).1._pInstance = s._pInstance := by
  unfold stopPortalMode
  split_ifs <;> rfl

theorem pInstance_service (now : Nat) (status : wl_status_t) (s : WiFiManager) :
    (service now status s).1._pInstance = s._pInstance := by
  unfold service
  simp only []
  split_ifs <;>
    first
    | rfl
    | exact pInstance_stopPortalMode s
    | exact pInstance_startPortalMode now _

theorem pInstance_setCredentials (ssid pw hostname : String) (resetToImplement : Bool)
    (now : Nat) (s : WiFiManager) :
    (setCredentials ssid pw hostname resetToImplement now s).1._pInstance = s._pInstance := by
  unfold setCredentials
  simp only []
  split_ifs <;>
    first
    | rfl
    | exact pInstance_stopPortalMode _

theorem pInstance_clearCredentials (now : Nat) (s : WiFiManager) :
    (clearCredentials now s).1._pInstance = s._pInstance := by
  unfold clearCredentials
  exact pInstance_startPortalMode now _

theorem pInstance_loadNetworkConfigFromSD
    (rdJsonGetString : String → String → String → String) (fileManager : FileManager)
    (now : Nat) (s : WiFiManager) :
    (loadNetworkConfigFromSD rdJsonGetString fileManager now s).2.1._pInstance
      = s._pInstance := by
  unfold loadNetworkConfigFromSD
  simp only []
  split_ifs <;>
    first
    | rfl
    | exact pInstance_clearCredentials now s
    | exact pInstance_stopPortalMode _

theorem wiFiEventHandler_registered (event : WiFiEvent_t) (status : wl_status_t) (now : Nat)
    (mdnsOk : Bool) (s : WiFiManager) (hi : s._pInstance = true) :
    ∃ r, wiFiEventHandler event status now mdnsOk s = some r ∧ r.1._pInstance = true := by
  cases event with
  | SYSTEM_EVENT_STA_GOT_IP => exact ⟨_, rfl, by simp [hi]⟩
  | other code => exact ⟨_, rfl, hi⟩
  | SYSTEM_EVENT_STA_DISCONNECTED =>
    have hrep : ∀ s1 : WiFiManager, s1._pInstance = true →
        ∃ r, reconnectAndReport s1 = some r ∧ r.1._pInstance = true := by
      intro s1 h1
      have hsome : reconnectAndReport s1 = some (s1,
          (if !s1._portalMode then [Effect.wifiReconnect] else [])
            ++ (if s1._pStatusLed then [Effect.statusLedSetCode 0] else [])) := by
        simp only [reconnectAndReport, h1, Bool.not_true, Bool.false_eq_true, if_false]
      exact ⟨_, hsome, h1⟩
    simp only [wiFiEventHandler]
    split_ifs
    · exact ⟨_, rfl, (pInstance_startPortalMode now _).trans hi⟩
    · exact hrep _ hi
    · exact hrep _ hi
    · exact hrep _ hi

theorem step_registered (c : Call) (s : WiFiManager) (hi : s._pInstance = true) :
    ∃ r, step c s = some r ∧ r.1._pInstance = true := by
  cases c with
  | service now status => exact ⟨_, rfl, (pInstance_service now status s).trans hi⟩
  | wiFiEventHandler event status now mdnsOk =>
    exact wiFiEventHandler_registered event status now mdnsOk s hi
  | setCredentials ssid pw hostname resetToImplement now =>
    exact ⟨_, rfl, (pInstance_setCredentials ssid pw hostname resetToImplement now s).trans hi⟩
  | clearCredentials now => exact ⟨_, rfl, (pInstance_clearCredentials now s).trans hi⟩
  | startPortalMode now => exact ⟨_, rfl, (pInstance_startPortalMode now s).trans hi⟩
  | stopPortalMode => exact ⟨_, rfl, (pInstance_stopPortalMode s).trans hi⟩
  | loadNetworkConfigFromSD rdJsonGetString fileManager now =>
    exact ⟨_, rfl,
      (pInstance_loadNetworkConfigFromSD rdJsonGetString fileManager now s).trans hi⟩

theorem run_registered (calls : List Call) (s : WiFiManager) (hi : s._pInstance = true) :
    ∃ s1, run calls s = some s1 := by
  induction calls generalizing s with
  | nil => exact ⟨s, rfl⟩
  | cons c cs ih =>
    obtain ⟨r, hr, hri⟩ := step_registered c s hi
    obtain ⟨s1, hs1⟩ := ih r.1 hri
    exact ⟨s1, by simp only [run, hr, hs1]⟩

theorem setup_registered (hwConfig : ConfigBase) (pSysConfig : Option ConfigBase)
    (defaultHostname : String) (pStatusLed : Bool) (macAddress : String)
    (r : WiFiManager × List Effect)
    (hr : setup hwConfig pSysConfig defaultHostname pStatusLed macAddress WiFiManager.new
      = some r) : r.1._pInstance = true := by
  cases pSysConfig with
  | none => simp [setup] at hr
  | some sysConfig =>
    simp only [setup, Option.some.injEq] at hr
    subst hr
    rfl

/-- C1: from the state produced by the constructor and `setup`, every sequence
of `service`, `wiFiEventHandler`, `setCredentials`, `clearCredentials`,
`startPortalMode`, `stopPortalMode` and `loadNetworkConfigFromSD` calls, at any
times and with any driver status, runs to a state, and in that state the
failure count lies between 0 and `MAX_CONNECTION_FAILURES` and a count at the
threshold is only found in portal mode. -/
theorem C1_failures_bounded_threshold_in_portal (hwConfig : ConfigBase)
    (pSysConfig : Option ConfigBase) (defaultHostname : String) (pStatusLed : Bool)
    (macAddress : String) (calls : List Call) (r0 : WiFiManager × List Effect)
    (hsetup : setup hwConfig pSysConfig defaultHostname pStatusLed macAddress
      WiFiManager.new = some r0) :
    ∃ s, run calls r0.1 = some s
      ∧ 0 ≤ s._connectionFailures ∧ s._connectionFailures ≤ MAX_CONNECTION_FAILURES
      ∧ (s._connectionFailures ≥ MAX_CONNECTION_FAILURES → s._portalMode = true) := by
  obtain ⟨s, hs⟩ := run_registered calls r0.1
    (setup_registered hwConfig pSysConfig defaultHostname pStatusLed macAddress r0 hsetup)
  exact ⟨s, hs, failureInvariant_run calls r0.1 s
    (failureInvariant_setup hwConfig pSysConfig defaultHostname pStatusLed macAddress r0
      hsetup) hs⟩

/-- C1 at a concrete run: one connection attempt followed by three
"SSID not found" disconnect events ends in portal mode with a count of 3. -/
theorem C1_failures_bounded_threshold_in_portal_witness :
    (setup exampleHwConfig (some exampleSysConfig) "sandBot" true "AA:BB:CC:DD:EE:FF"
        WiFiManager.new
      = some (exampleStart, [Effect.wifiOnEvent, Effect.wifiMode wifi_mode_t.WIFI_STA]))
    ∧ run exampleEventCalls exampleStart = some exampleAfterEvents
    ∧ exampleAfterEvents._connectionFailures = 3
    ∧ ∃ s, run exampleEventCalls exampleStart = some s
      ∧ 0 ≤ s._connectionFailures ∧ s._connectionFailures ≤ MAX_CONNECTION_FAILURES
      ∧ (s._connectionFailures ≥ MAX_CONNECTION_FAILURES → s._portalMode = true) :=
  ⟨by decide, by decide, by decide,
    C1_failures_bounded_threshold_in_portal exampleHwConfig (some exampleSysConfig)
      "sandBot" true "AA:BB:CC:DD:EE:FF" exampleEventCalls
      (exampleStart, [Effect.wifiOnEvent, Effect.wifiMode wifi_mode_t.WIFI_STA])
      (by decide)⟩

/-- C2: in portal mode, at every time and for every driver status, `service`
and the `SYSTEM_EVENT_STA_DISCONNECTED` handler issue neither `WiFi.begin` nor
`WiFi.reconnect`, the handler leaves the failure count unchanged, both leave
the manager in portal mode, and the handler has a result on every registered
manager. -/
theorem C2_no_connection_attempt_in_portal (now : Nat) (status : wl_status_t)
    (mdnsOk : Bool) (s : WiFiManager) (hp : s._portalMode = true) :
    (∀ e ∈ (service now status s).2,
        (∀ ssid pw, e ≠ Effect.wifiBegin ssid pw) ∧ e ≠ Effect.wifiReconnect)
    ∧ (service now status s).1._portalMode = true
    ∧ (∀ r, wiFiEventHandler WiFiEvent_t.SYSTEM_EVENT_STA_DISCONNECTED status now mdnsOk s
          = some r →
        (∀ e ∈ r.2, (∀ ssid pw, e ≠ Effect.wifiBegin ssid pw) ∧ e ≠ Effect.wifiReconnect)
        ∧ r.1._connectionFailures = s._connectionFailures
        ∧ r.1._portalMode = true)
    ∧ (s._pInstance = true →
        (wiFiEventHandler WiFiEvent_t.SYSTEM_EVENT_STA_DISCONNECTED status now mdnsOk
          s).isSome = true) := by
  refine ⟨?_, ?_, ?_, ?_⟩
  · unfold service
    by_cases he : s._wifiEnabled = true <;>
      by_cases hr : (s._deviceRestartPending
        && Utils.isTimeout now s._deviceRestartMs DEVICE_RESTART_DELAY_MS) = true <;>
      simp [he, hr, hp, PORTAL_TIMEOUT_MS]
  · unfold service
    by_cases he : s._wifiEnabled = true <;>
      by_cases hr : (s._deviceRestartPending
        && Utils.isTimeout now s._deviceRestartMs DEVICE_RESTART_DELAY_MS) = true <;>
      simp [he, hr, hp, PORTAL_TIMEOUT_MS]
  · intro r hr
    simp only [wiFiEventHandler, hp, Bool.not_true, Bool.and_false, Bool.false_eq_true,
      if_false] at hr
    obtain ⟨h1, -, h2⟩ := reconnectAndReport_some s r hr
    rw [h1, h2]
    refine ⟨?_, rfl, hp⟩
    by_cases hl : s._pStatusLed = true <;> simp [hp, hl]
  · intro hi
    simp [wiFiEventHandler, reconnectAndReport, hp, hi]

/-- C2 at a concrete state: the portal-mode state `exampleAfterEvents`. -/
theorem C2_no_connection_attempt_in_portal_witness :
    exampleAfterEvents._portalMode = true
    ∧ (∀ e ∈ (service 100000 wl_status_t.WL_DISCONNECTED exampleAfterEvents).2,
        (∀ ssid pw, e ≠ Effect.wifiBegin ssid pw) ∧ e ≠ Effect.wifiReconnect)
    ∧ (wiFiEventHandler WiFiEvent_t.SYSTEM_EVENT_STA_DISCONNECTED
        wl_status_t.WL_DISCONNECTED 100000 false exampleAfterEvents).isSome = true :=
  ⟨by decide,
    (C2_no_connection_attempt_in_portal 100000 wl_status_t.WL_DISCONNECTED false
      exampleAfterEvents (by decide)).1,
    (C2_no_connection_attempt_in_portal 100000 wl_status_t.WL_DISCONNECTED false
      exampleAfterEvents (by decide)).2.2.2 (by decide)⟩

/-- C3: on every manager registered by `setup`, whatever its failure count,
attempt time and mode, the `SYSTEM_EVENT_STA_GOT_IP` handler returns with the
failure count 0 and the attempt start time 0. -/
theorem C3_gotIp_resets_failures_and_attempt (status : wl_status_t) (now : Nat)
    (mdnsOk : Bool) (s : WiFiManager) (hi : s._pInstance = true) :
    ∃ r, wiFiEventHandler WiFiEvent_t.SYSTEM_EVENT_STA_GOT_IP status now mdnsOk s = some r
      ∧ r.1._connectionFailures = 0 ∧ r.1._connectionAttemptStartTime = 0 := by
  refine ⟨_, rfl, ?_, ?_⟩ <;> simp [hi]

/-- C3 at a concrete state: `exampleAfterEvents`, which has a count of 3. -/
theorem C3_gotIp_resets_failures_and_attempt_witness :
    exampleAfterEvents._pInstance = true ∧ exampleAfterEvents._connectionFailures = 3
    ∧ ∃ r, wiFiEventHandler WiFiEvent_t.SYSTEM_EVENT_STA_GOT_IP wl_status_t.WL_CONNECTED
          5000 true exampleAfterEvents = some r
        ∧ r.1._connectionFailures = 0 ∧ r.1._connectionAttemptStartTime = 0 :=
  ⟨by decide, by decide,
    C3_gotIp_resets_failures_and_attempt wl_status_t.WL_CONNECTED 5000 true
      exampleAfterEvents (by decide)⟩

/-- C4: from every state, `clearCredentials` ends in portal mode with empty
SSID and password, the default hostname, failure count 0 and attempt start
time 0. -/
theorem C4_clearCredentials_postcondition (now : Nat) (s : WiFiManager) :
    (clearCredentials now s).1._portalMode = true
    ∧ (clearCredentials now s).1._ssid = ""
    ∧ (clearCredentials now s).1._password = ""
    ∧ (clearCredentials now s).1._hostname = s._defaultHostname
    ∧ (clearCredentials now s).1._connectionFailures = 0
    ∧ (clearCredentials now s).1._connectionAttemptStartTime = 0 := by
  unfold clearCredentials startPortalMode
  by_cases hp : s._portalMode = true <;> simp [hp]

/-- C5, the code at a failing input: a `WL_DISCONNECTED` disconnect handled
999 ms after the attempt of `exampleAttempting` started (not in portal mode,
attempt outstanding) is not counted: the failure count stays 0 and the attempt
start time stays set. -/
theorem C5_code_disconnect_within_grace_not_counted :
    (setup exampleHwConfig (some exampleSysConfig) "sandBot" true "AA:BB:CC:DD:EE:FF"
        WiFiManager.new
      = some (exampleStart, [Effect.wifiOnEvent, Effect.wifiMode wifi_mode_t.WIFI_STA]))
    ∧ run [Call.service 2001 wl_status_t.WL_DISCONNECTED] exampleStart = some exampleAttempting
    ∧ exampleAttempting._portalMode = false
    ∧ exampleAttempting._connectionAttemptStartTime = 2001
    ∧ exampleAttempting._connectionFailures = 0
    ∧ wiFiEventHandler WiFiEvent_t.SYSTEM_EVENT_STA_DISCONNECTED wl_status_t.WL_DISCONNECTED
        3000 false exampleAttempting
      = some (exampleAttempting, [Effect.wifiReconnect, Effect.statusLedSetCode 0]) := by
  decide

/-- C6, the code at a failing input: a `WL_DISCONNECTED` disconnect handled
5999 ms after the attempt of `exampleAttempting` started is counted: the
failure count goes from 0 to 1 and the attempt start time is cleared. -/
theorem C6_code_disconnect_after_grace_counted :
    (setup exampleHwConfig (some exampleSysConfig) "sandBot" true "AA:BB:CC:DD:EE:FF"
        WiFiManager.new
      = some (exampleStart, [Effect.wifiOnEvent, Effect.wifiMode wifi_mode_t.WIFI_STA]))
    ∧ run [Call.service 2001 wl_status_t.WL_DISCONNECTED] exampleStart = some exampleAttempting
    ∧ exampleAttempting._portalMode = false
    ∧ exampleAttempting._connectionAttemptStartTime = 2001
    ∧ exampleAttempting._connectionFailures = 0
    ∧ wiFiEventHandler WiFiEvent_t.SYSTEM_EVENT_STA_DISCONNECTED wl_status_t.WL_DISCONNECTED
        8000 false exampleAttempting
      = some
        ({ exampleAttempting with _connectionFailures := 1, _connectionAttemptStartTime := 0 },
          [Effect.wifiReconnect, Effect.statusLedSetCode 0]) := by
  decide

/-- C7: on a registered manager that is not in portal mode, whatever the
attempt start time and the current time, a disconnect with status
`WL_NO_SSID_AVAIL` or `WL_CONNECT_FAILED` raises the failure count by one and
clears the attempt start time; when the new count reaches
`MAX_CONNECTION_FAILURES` the handler enters portal mode and issues no
`WiFi.reconnect`, otherwise it stays out of portal mode and issues
`WiFi.reconnect`. -/
theorem C7_negotiation_failure_counts (status : wl_status_t) (now : Nat) (mdnsOk : Bool)
    (s : WiFiManager) (hp : s._portalMode = false) (hi : s._pInstance = true)
    (hst : status = wl_status_t.WL_NO_SSID_AVAIL ∨ status = wl_status_t.WL_CONNECT_FAILED) :
    ∃ r, wiFiEventHandler WiFiEvent_t.SYSTEM_EVENT_STA_DISCONNECTED status now mdnsOk s
        = some r
      ∧ r.1._connectionFailures = s._connectionFailures + 1
      ∧ r.1._connectionAttemptStartTime = 0
      ∧ (s._connectionFailures + 1 ≥ MAX_CONNECTION_FAILURES →
          r.1._portalMode = true ∧ Effect.wifiReconnect ∉ r.2)
      ∧ (s._connectionFailures + 1 < MAX_CONNECTION_FAILURES →
          r.1._portalMode = false ∧ Effect.wifiReconnect ∈ r.2) := by
  have hcount : shouldCountFailure status now s = true := by
    rcases hst with h | h <;> simp [h, shouldCountFailure]
  by_cases hmax : s._connectionFailures + 1 ≥ MAX_CONNECTION_FAILURES
  · refine ⟨startPortalMode now { s with
        _connectionFailures := s._connectionFailures + 1
        _connectionAttemptStartTime := 0 }, ?_, ?_, ?_, ?_, ?_⟩
    · simp [wiFiEventHandler, hp, hi, hcount, hmax]
    · simp [startPortalMode, hp]
    · simp [startPortalMode, hp]
    · intro _
      by_cases hl : s._pStatusLed = true <;> simp [startPortalMode, hp, hl]
    · intro h
      exact absurd hmax (not_le.mpr h)
  · refine ⟨(({ s with
        _connectionFailures := s._connectionFailures + 1
        _connectionAttemptStartTime := 0 } : WiFiManager),
        [Effect.wifiReconnect] ++ (if s._pStatusLed then [Effect.statusLedSetCode 0] else [])),
        ?_, rfl, rfl, ?_, ?_⟩
    · simp [wiFiEventHandler, reconnectAndReport, hp, hi, hcount, hmax]
    · intro h
      exact absurd h hmax
    · intro _
      exact ⟨hp, by simp⟩

/-- C7 at a concrete state: from `exampleAttempting` one "SSID not found"
disconnect gives a count of 1 and a reconnect request. -/
theorem C7_negotiation_failure_counts_witness :
    exampleAttempting._portalMode = false ∧ exampleAttempting._pInstance = true
    ∧ ∃ r, wiFiEventHandler WiFiEvent_t.SYSTEM_EVENT_STA_DISCONNECTED
          wl_status_t.WL_NO_SSID_AVAIL 2100 false exampleAttempting = some r
        ∧ r.1._connectionFailures = exampleAttempting._connectionFailures + 1
        ∧ r.1._connectionAttemptStartTime = 0
        ∧ (exampleAttempting._connectionFailures + 1 ≥ MAX_CONNECTION_FAILURES →
            r.1._portalMode = true ∧ Effect.wifiReconnect ∉ r.2)
        ∧ (exampleAttempting._connectionFailures + 1 < MAX_CONNECTION_FAILURES →
            r.1._portalMode = false ∧ Effect.wifiReconnect ∈ r.2) :=
  ⟨by decide, by decide,
    C7_negotiation_failure_counts wl_status_t.WL_NO_SSID_AVAIL 2100 false exampleAttempting
      (by decide) (by decide) (Or.inl rfl)⟩

theorem setup_some (hwConfig sysConfig : ConfigBase) (defaultHostname : String)
    (pStatusLed : Bool) (macAddress : String) (r0 : WiFiManager × List Effect)
    (hsetup : setup hwConfig (some sysConfig) defaultHostname pStatusLed macAddress
      WiFiManager.new = some r0) :
    r0.1._wifiEnabled = (hwConfig.getLong "wifiEnabled" 0 != 0)
    ∧ r0.1._ssid = sysConfig.getString "WiFiSSID" ""
    ∧ r0.1._deviceRestartPending = false ∧ r0.1._portalMode = false
    ∧ r0.1._connectionFailures = 0 ∧ r0.1._connectionAttemptStartTime = 0
    ∧ r0.1._lastWifiBeginAttemptMs = 0 ∧ r0.1._wifiFirstBeginDone = false := by
  simp only [setup, Option.some.injEq] at hsetup
  subst hsetup
  simp [WiFiManager.new]

/-- C8, as stated, fails: after `setup` with WiFi enabled and no stored SSID,
a first `service` call at 1000 ms with the link down leaves the manager out
of portal mode. -/
theorem C8_counterexample_first_service_before_delay :
    (setup exampleHwConfig (some emptySysConfig) "sandBot" true "AA:BB:CC:DD:EE:FF"
        WiFiManager.new
      = some (emptyStart, [Effect.wifiOnEvent, Effect.wifiMode wifi_mode_t.WIFI_STA]))
    ∧ emptyStart._wifiEnabled = true ∧ emptyStart._ssid = ""
    ∧ (service 1000 wl_status_t.WL_DISCONNECTED emptyStart).1._portalMode = false := by
  decide

/-- C8, amended: after `setup` with WiFi enabled and an empty stored SSID, with
the link down, the first `service` call issues no `WiFi.begin` at whatever
time it is made; it ends in portal mode when it is made more than
`TIME_BEFORE_FIRST_BEGIN_MS` after time 0, and changes nothing before. -/
theorem C8_empty_credentials_portal_after_delay (hwConfig sysConfig : ConfigBase)
    (defaultHostname : String) (pStatusLed : Bool) (macAddress : String)
    (r0 : WiFiManager × List Effect) (now : Nat) (status : wl_status_t)
    (hsetup : setup hwConfig (some sysConfig) defaultHostname pStatusLed macAddress
      WiFiManager.new = some r0)
    (hen : hwConfig.getLong "wifiEnabled" 0 ≠ 0)
    (hssid : sysConfig.getString "WiFiSSID" "" = "")
    (hst : status ≠ wl_status_t.WL_CONNECTED) :
    (∀ ssid pw, Effect.wifiBegin ssid pw ∉ (service now status r0.1).2)
    ∧ (TIME_BEFORE_FIRST_BEGIN_MS < now → (service now status r0.1).1._portalMode = true)
    ∧ (now ≤ TIME_BEFORE_FIRST_BEGIN_MS → service now status r0.1 = (r0.1, [])) := by
  simp only [setup, Option.some.injEq] at hsetup
  subst hsetup
  have hne : (status != wl_status_t.WL_CONNECTED) = true := by simpa using hst
  have hen1 : (hwConfig.getLong "wifiEnabled" 0 != 0) = true := by simpa using hen
  by_cases hnow : 2000 < now
  · cases pStatusLed <;>
      simp [service, startPortalMode, attemptTimedOut, Utils.isTimeout, WiFiManager.new,
        TIME_BEFORE_FIRST_BEGIN_MS, hen1, hssid, hne, hnow]
  · simp [service, attemptTimedOut, Utils.isTimeout, WiFiManager.new,
      TIME_BEFORE_FIRST_BEGIN_MS, hen1, hssid, hne, hnow]

/-- C8 amended, at a concrete start: `emptyStart` and a first `service` call at
2001 ms. -/
theorem C8_empty_credentials_portal_after_delay_witness :
    (∀ ssid pw, Effect.wifiBegin ssid pw
        ∉ (service 2001 wl_status_t.WL_DISCONNECTED emptyStart).2)
    ∧ (TIME_BEFORE_FIRST_BEGIN_MS < 2001 →
        (service 2001 wl_status_t.WL_DISCONNECTED emptyStart).1._portalMode = true)
    ∧ (2001 ≤ TIME_BEFORE_FIRST_BEGIN_MS →
        service 2001 wl_status_t.WL_DISCONNECTED emptyStart = (emptyStart, [])) :=
  C8_empty_credentials_portal_after_delay exampleHwConfig emptySysConfig "sandBot" true
    "AA:BB:CC:DD:EE:FF"
    (emptyStart, [Effect.wifiOnEvent, Effect.wifiMode wifi_mode_t.WIFI_STA]) 2001
    wl_status_t.WL_DISCONNECTED (by decide) (by decide) (by decide) (by decide)

theorem escalation_service (c now : Nat) (status : wl_status_t) (s : WiFiManager)
    (h : EscalationInvariant c s) (hst : status ≠ wl_status_t.WL_CONNECTED) :
    EscalationInvariant (c + if detectsTimeout now status s then 1 else 0)
      (service now status s).1 := by
  obtain ⟨he, hr, hs, hm⟩ := h
  have hne : (status != wl_status_t.WL_CONNECTED) = true := by simpa using hst
  have hs1 : (s._ssid.length == 0) = false := by simpa using hs
  rcases hm with ⟨hp, hf, hc⟩ | ⟨hp, hc⟩
  · by_cases ht : attemptTimedOut now s = true
    · by_cases hmax : s._connectionFailures + 1 ≥ MAX_CONNECTION_FAILURES
      · have hc3 : c + 1 = 3 := by
          simp only [MAX_CONNECTION_FAILURES] at hmax
          omega
        simp [service, detectsTimeout, EscalationInvariant, startPortalMode, he, hr, hp, hne,
          ht, hmax, hc3, hs]
      · have hc3 : c + 1 < 3 := by
          simp only [MAX_CONNECTION_FAILURES] at hmax
          omega
        simp only [service, detectsTimeout, EscalationInvariant, he, hr, hp, hne, ht, hmax,
          Bool.not_true, Bool.not_false, Bool.false_and, Bool.true_and, Bool.and_true,
          Bool.false_eq_true, if_false, if_true, decide_False]
        split_ifs <;> simp_all
    · simp only [Bool.not_eq_true] at ht
      simp only [service, detectsTimeout, EscalationInvariant, he, hr, hp, hne, ht,
        Bool.not_true, Bool.not_false, Bool.false_and, Bool.true_and, Bool.and_false,
        Bool.false_eq_true, if_false, if_true, Nat.add_zero]
      split_ifs <;> simp_all
  · simp [service, detectsTimeout, EscalationInvariant, he, hr, hp, hc, hs, PORTAL_TIMEOUT_MS]

theorem escalation_serviceRun (ticks : List (Nat × wl_status_t)) (c : Nat) (s : WiFiManager)
    (h : EscalationInvariant c s) (hdown : ∀ t ∈ ticks, t.2 ≠ wl_status_t.WL_CONNECTED) :
    EscalationInvariant (c + timeoutsDetected ticks s) (serviceRun ticks s) := by
  induction ticks generalizing c s with
  | nil => simpa [timeoutsDetected, serviceRun] using h
  | cons t ts ih =>
    have h1 := escalation_service c t.1 t.2 s h (hdown t (List.mem_cons_self t ts))
    have h2 := ih _ _ h1 (fun u hu => hdown u (List.mem_cons_of_mem t hu))
    simpa [timeoutsDetected, serviceRun, Nat.add_assoc] using h2

/-- C9: from the state after `setup` with WiFi enabled and a non-empty SSID,
along every run of `service` calls at non-decreasing times with the driver
never link-up, after each call the manager is in portal mode exactly when at
least `MAX_CONNECTION_FAILURES` attempt timeouts have been detected so far;
so it is out of portal mode before the third detection and enters it in the
call that makes the third. -/
theorem C9_three_timeouts_escalate (hwConfig sysConfig : ConfigBase)
    (defaultHostname : String) (pStatusLed : Bool) (macAddress : String)
    (r0 : WiFiManager × List Effect) (ticks : List (Nat × wl_status_t)) (k : Nat)
    (hsetup : setup hwConfig (some sysConfig) defaultHostname pStatusLed macAddress
      WiFiManager.new = some r0)
    (hen : hwConfig.getLong "wifiEnabled" 0 ≠ 0)
    (hssid : sysConfig.getString "WiFiSSID" "" ≠ "")
    (hdown : ∀ t ∈ ticks, t.2 ≠ wl_status_t.WL_CONNECTED)
    (_htimes : ticks.Pairwise (fun a b => a.1 ≤ b.1)) :
    ((serviceRun (ticks.take k) r0.1)._portalMode = true
      ↔ MAX_CONNECTION_FAILURES ≤ (timeoutsDetected (ticks.take k) r0.1 : Int)) := by
  obtain ⟨h1, h2, h3, h4, h5, -, -, -⟩ :=
    setup_some hwConfig sysConfig defaultHostname pStatusLed macAddress r0 hsetup
  have hinit : EscalationInvariant 0 r0.1 := by
    refine ⟨?_, h3, ?_, Or.inl ⟨h4, by simpa using h5, by decide⟩⟩
    · rw [h1]
      simpa using hen
    · rw [h2]
      exact fun h => hssid ((string_length_eq_zero_iff _).mp h)
  have hrun := escalation_serviceRun (ticks.take k) 0 r0.1 hinit
    (fun t ht => hdown t (List.mem_of_mem_take ht))
  obtain ⟨-, -, -, hm⟩ := hrun
  simp only [MAX_CONNECTION_FAILURES]
  rcases hm with ⟨hp, -, hc⟩ | ⟨hp, hc⟩
  · simp only [hp, Bool.false_eq_true, false_iff]
    omega
  · simp only [hp, true_iff]
    omega

/-- C9 at a concrete run: in `exampleTimeoutTicks` the third timeout is
detected by the sixth call; after five calls the manager is out of portal
mode, after six it is in portal mode. -/
theorem C9_three_timeouts_escalate_witness :
    timeoutsDetected (exampleTimeoutTicks.take 5) exampleStart = 2
    ∧ (serviceRun (exampleTimeoutTicks.take 5) exampleStart)._portalMode = false
    ∧ timeoutsDetected (exampleTimeoutTicks.take 6) exampleStart = 3
    ∧ ((serviceRun (exampleTimeoutTicks.take 6) exampleStart)._portalMode = true
      ↔ MAX_CONNECTION_FAILURES
          ≤ (timeoutsDetected (exampleTimeoutTicks.take 6) exampleStart : Int)) :=
  ⟨by decide, by decide, by decide,
    C9_three_timeouts_escalate exampleHwConfig exampleSysConfig "sandBot" true
      "AA:BB:CC:DD:EE:FF"
      (exampleStart, [Effect.wifiOnEvent, Effect.wifiMode wifi_mode_t.WIFI_STA])
      exampleTimeoutTicks 6 (by decide) (by decide) (by decide) (by decide) (by decide)⟩

/-- C10: from every state and for any two call times, a second
`startPortalMode` leaves the state of the first unchanged and emits no effect,
and a second `stopPortalMode` leaves the state of the first unchanged and
emits no effect. -/
theorem C10_portal_transitions_idempotent (t1 t2 : Nat) (s : WiFiManager) :
    startPortalMode t2 (startPortalMode t1 s).1 = ((startPortalMode t1 s).1, [])
    ∧ stopPortalMode (stopPortalMode s).1 = ((stopPortalMode s).1, []) := by
  unfold startPortalMode stopPortalMode
  by_cases hp : s._portalMode = true <;> simp [hp]

/-- C11, as stated, fails: from `exampleTwoFailures` (not in portal mode, count
2, reached by the first three calls of `exampleEventCalls`) a direct
`startPortalMode` enters portal mode with the count still 2, and a third
"SSID not found" disconnect enters portal mode with the count 3. -/
theorem C11_counterexample_portal_entry_keeps_count :
    run (exampleEventCalls.take 3) exampleStart = some exampleTwoFailures
    ∧ exampleTwoFailures._portalMode = false
    ∧ (startPortalMode 2300 exampleTwoFailures).1._portalMode = true
    ∧ (startPortalMode 2300 exampleTwoFailures).1._connectionFailures = 2
    ∧ wiFiEventHandler WiFiEvent_t.SYSTEM_EVENT_STA_DISCONNECTED wl_status_t.WL_NO_SSID_AVAIL
        2300 false exampleTwoFailures
      = some (exampleAfterEvents,
          [Effect.wifiDisconnect, Effect.wifiMode wifi_mode_t.WIFI_AP,
            Effect.wifiSoftAP "sandBot-DDEEFF" "SecureThis", Effect.dnsStart,
            Effect.statusLedSetCode 2])
    ∧ exampleAfterEvents._portalMode = true
    ∧ exampleAfterEvents._connectionFailures = 3 := by
  decide

/-- C12, as stated, fails: `noLedPortal` is a portal-mode state reached after
`setup` without a status LED (and no stored SSID) by `service` at 2001 ms;
there `stopPortalMode` emits the DNS-server stop and `WiFi.mode(WIFI_STA)` but
no status code. -/
theorem C12_counterexample_no_status_led :
    (setup exampleHwConfig (some emptySysConfig) "sandBot" false "AA:BB:CC:DD:EE:FF"
        WiFiManager.new
      = some (noLedStart, [Effect.wifiOnEvent, Effect.wifiMode wifi_mode_t.WIFI_STA]))
    ∧ (service 2001 wl_status_t.WL_DISCONNECTED noLedStart).1 = noLedPortal
    ∧ noLedPortal._portalMode = true
    ∧ (stopPortalMode noLedPortal).2 = [Effect.dnsStop, Effect.wifiMode wifi_mode_t.WIFI_STA]
    ∧ Effect.statusLedSetCode 0 ∉ (stopPortalMode noLedPortal).2 := by
  decide

/-- C12, amended: in portal mode `stopPortalMode` clears the portal flag and
the failure count and changes no other field (credentials, attempt and
throttle timers, restart fields), and it emits the DNS-server stop,
`WiFi.mode(WIFI_STA)` and, when a status LED is registered, status code 0;
out of portal mode it changes nothing and emits nothing. -/
theorem C12_stopPortalMode_leaves_portal (s : WiFiManager) :
    (s._portalMode = true →
      stopPortalMode s
        = ({ s with _portalMode := false, _connectionFailures := 0 },
            [Effect.dnsStop, Effect.wifiMode wifi_mode_t.WIFI_STA]
              ++ (if s._pStatusLed then [Effect.statusLedSetCode 0] else []))
      ∧ (stopPortalMode s).1._portalMode = false
      ∧ (stopPortalMode s).1._connectionFailures = 0
      ∧ (stopPortalMode s).1._ssid = s._ssid
      ∧ (stopPortalMode s).1._password = s._password
      ∧ (stopPortalMode s).1._hostname = s._hostname
      ∧ (stopPortalMode s).1._connectionAttemptStartTime = s._connectionAttemptStartTime
      ∧ (stopPortalMode s).1._lastWifiBeginAttemptMs = s._lastWifiBeginAttemptMs
      ∧ (stopPortalMode s).1._wifiFirstBeginDone = s._wifiFirstBeginDone
      ∧ (stopPortalMode s).1._deviceRestartPending = s._deviceRestartPending
      ∧ (stopPortalMode s).1._deviceRestartMs = s._deviceRestartMs)
    ∧ (s._portalMode = false → stopPortalMode s = (s, [])) := by
  constructor
  · intro hp
    simp [stopPortalMode, hp]
  · intro hp
    simp [stopPortalMode, hp]

/-- C12 amended, at concrete states: `exampleAfterEvents` (portal mode, status
LED registered) and `exampleStart` (not in portal mode). -/
theorem C12_stopPortalMode_leaves_portal_witness :
    (stopPortalMode exampleAfterEvents).2
      = [Effect.dnsStop, Effect.wifiMode wifi_mode_t.WIFI_STA, Effect.statusLedSetCode 0]
    ∧ (stopPortalMode exampleAfterEvents).1._portalMode = false
    ∧ (stopPortalMode exampleAfterEvents).1._connectionFailures = 0
    ∧ stopPortalMode exampleStart = (exampleStart, []) :=
  ⟨by decide,
    ((C12_stopPortalMode_leaves_portal exampleAfterEvents).1 (by decide)).2.1,
    ((C12_stopPortalMode_leaves_portal exampleAfterEvents).1 (by decide)).2.2.1,
    (C12_stopPortalMode_leaves_portal exampleStart).2 (by decide)⟩

theorem espRestart_not_mem_startPortalMode (now : Nat) (s : WiFiManager) :
    Effect.espRestart ∉ (startPortalMode now s).2 := by
  unfold startPortalMode
  by_cases hp : s._portalMode = true <;> by_cases hl : s._pStatusLed = true <;> simp [hp, hl]

theorem espRestart_not_mem_stopPortalMode (s : WiFiManager) :
    Effect.espRestart ∉ (stopPortalMode s).2 := by
  unfold stopPortalMode
  by_cases hp : s._portalMode = true <;> by_cases hl : s._pStatusLed = true <;> simp [hp, hl]

theorem espRestart_mem_service_iff (now : Nat) (status : wl_status_t) (s : WiFiManager) :
    Effect.espRestart ∈ (service now status s).2
      ↔ (s._wifiEnabled = true ∧ s._deviceRestartPending = true
          ∧ Utils.isTimeout now s._deviceRestartMs DEVICE_RESTART_DELAY_MS = true) := by
  unfold service
  by_cases he : s._wifiEnabled = true
  swap
  · simp [he]
  by_cases hr : (s._deviceRestartPending
      && Utils.isTimeout now s._deviceRestartMs DEVICE_RESTART_DELAY_MS) = true
  · have hr2 := hr
    simp only [Bool.and_eq_true] at hr2
    simp [he, hr, hr2.1, hr2.2]
  have hr2 : ¬ (s._deviceRestartPending = true
      ∧ Utils.isTimeout now s._deviceRestartMs DEVICE_RESTART_DELAY_MS = true) := by
    simpa using hr
  simp only [he, hr, Bool.not_true, Bool.false_eq_true, if_false, true_and, hr2, iff_false]
  split_ifs
  all_goals
    first
    | exact espRestart_not_mem_startPortalMode now _
    | (intro h; simp at h; exact absurd h (espRestart_not_mem_stopPortalMode s))
    | simp

/-- C13: from every state, `setCredentials(ssid, pw, "", true)` at time `t` stores
`ssid` and `pw`, keeps the hostname, and arms the restart at `t`; with WiFi
enabled, a following `service` call at time `t2` restarts the device when more
than `DEVICE_RESTART_DELAY_MS` have elapsed since `t` and does not restart it
when at most that much has elapsed; a non-empty hostname argument replaces
the hostname. -/
theorem C13_setCredentials_keeps_hostname_arms_restart (ssid pw hostname : String)
    (resetToImplement : Bool) (t t2 : Nat) (status : wl_status_t) (s : WiFiManager) :
    (setCredentials ssid pw "" true t s).1._ssid = ssid
    ∧ (setCredentials ssid pw "" true t s).1._password = pw
    ∧ (setCredentials ssid pw "" true t s).1._hostname = s._hostname
    ∧ (setCredentials ssid pw "" true t s).1._deviceRestartPending = true
    ∧ (setCredentials ssid pw "" true t s).1._deviceRestartMs = t
    ∧ (s._wifiEnabled = true → t + DEVICE_RESTART_DELAY_MS < t2 →
        Effect.espRestart ∈ (service t2 status (setCredentials ssid pw "" true t s).1).2)
    ∧ (s._wifiEnabled = true → t2 - t ≤ DEVICE_RESTART_DELAY_MS →
        Effect.espRestart ∉ (service t2 status (setCredentials ssid pw "" true t s).1).2)
    ∧ (hostname ≠ "" →
        (setCredentials ssid pw hostname resetToImplement t s).1._hostname = hostname) := by
  have hstate : ∀ (h : String) (b : Bool),
      (setCredentials ssid pw h b t s).1._ssid = ssid
      ∧ (setCredentials ssid pw h b t s).1._password = pw
      ∧ (setCredentials ssid pw h b t s).1._hostname
          = (if h.length == 0 then s._hostname else h)
      ∧ (setCredentials ssid pw h b t s).1._wifiEnabled = s._wifiEnabled
      ∧ (b = true → (setCredentials ssid pw h b t s).1._deviceRestartPending = true
          ∧ (setCredentials ssid pw h b t s).1._deviceRestartMs = t) := by
    intro h b
    unfold setCredentials stopPortalMode
    by_cases hp : s._portalMode = true <;> cases b <;> simp [hp]
  obtain ⟨h1, h2, h3, h4, h5⟩ := hstate "" true
  obtain ⟨h5, h6⟩ := h5 rfl
  refine ⟨h1, h2, by simpa using h3, h5, h6, ?_, ?_, ?_⟩
  · intro he hlt
    have hto : Utils.isTimeout t2 t DEVICE_RESTART_DELAY_MS = true := by
      simpa [Utils.isTimeout] using hlt
    rw [espRestart_mem_service_iff]
    simp [h4, h5, h6, he, hto]
  · intro he hle
    have hto : Utils.isTimeout t2 t DEVICE_RESTART_DELAY_MS = false := by
      simp only [Utils.isTimeout, decide_eq_false_iff_not, not_lt]
      omega
    rw [espRestart_mem_service_iff]
    simp [h6, hto]
  · intro hne
    have hlen : (hostname.length == 0) = false := by
      simpa using fun h => hne ((string_length_eq_zero_iff hostname).mp h)
    rw [(hstate hostname resetToImplement).2.2.1]
    simp [hlen]

/-- C13 at a concrete state: credentials set at 100 ms on `exampleStart`; a
`service` call at 1101 ms restarts the device, one at 1100 ms does not. -/
theorem C13_setCredentials_keeps_hostname_arms_restart_witness :
    (setCredentials "cafe" "secret" "" true 100 exampleStart).1._hostname = "sandBot"
    ∧ Effect.espRestart
        ∈ (service 1101 wl_status_t.WL_DISCONNECTED
            (setCredentials "cafe" "secret" "" true 100 exampleStart).1).2
    ∧ Effect.espRestart
        ∉ (service 1100 wl_status_t.WL_DISCONNECTED
            (setCredentials "cafe" "secret" "" true 100 exampleStart).1).2
    ∧ (setCredentials "cafe" "secret" "kitchen" false 100 exampleStart).1._hostname
        = "kitchen" :=
  ⟨by decide,
    (C13_setCredentials_keeps_hostname_arms_restart "cafe" "secret" "kitchen" false 100 1101
      wl_status_t.WL_DISCONNECTED exampleStart).2.2.2.2.2.1 (by decide) (by decide),
    (C13_setCredentials_keeps_hostname_arms_restart "cafe" "secret" "kitchen" false 100 1100
      wl_status_t.WL_DISCONNECTED exampleStart).2.2.2.2.2.2.1 (by decide) (by decide),
    (C13_setCredentials_keeps_hostname_arms_restart "cafe" "secret" "kitchen" false 100 1100
      wl_status_t.WL_DISCONNECTED exampleStart).2.2.2.2.2.2.2 (by decide)⟩

/-- C14: from every state, when the SD card is mounted, the `.network` file has
content and its `wifi` value lower-cases to `ap`, `loadNetworkConfigFromSD`
returns true with exactly the final state and the effect sequence of
`clearCredentials` on that state; the credentials are wiped and the manager
is in portal mode. -/
theorem C14_bootstrap_ap_is_clearCredentials
    (rdJsonGetString : String → String → String → String) (fileManager : FileManager)
    (now : Nat) (s : WiFiManager)
    (hsd : fileManager.isSDCardOk = true)
    (hdoc : (fileManager.getFileContents "sd" ".network" 2048).length ≠ 0)
    (hap : toLowerCase
        (rdJsonGetString "wifi" "" (fileManager.getFileContents "sd" ".network" 2048))
      = "ap") :
    loadNetworkConfigFromSD rdJsonGetString fileManager now s
      = (true, (clearCredentials now s).1, (clearCredentials now s).2)
    ∧ (clearCredentials now s).1._ssid = ""
    ∧ (clearCredentials now s).1._password = ""
    ∧ (clearCredentials now s).1._portalMode = true := by
  refine ⟨?_, ?_, ?_, ?_⟩
  · unfold loadNetworkConfigFromSD
    have hdoc1 : ((fileManager.getFileContents "sd" ".network" 2048).length == 0) = false := by
      simpa using hdoc
    simp only [hsd, hdoc1, hap, Bool.not_true, Bool.false_eq_true, if_false]
    rfl
  all_goals
    unfold clearCredentials startPortalMode
    by_cases hp : s._portalMode = true <;> simp [hp]

/-- C14 at a concrete input: the `wifi` value `AP` on `exampleAttempting`. -/
theorem C14_bootstrap_ap_is_clearCredentials_witness :
    loadNetworkConfigFromSD exampleRdJsonAp exampleFileManager 10 exampleAttempting
      = (true, (clearCredentials 10 exampleAttempting).1,
          (clearCredentials 10 exampleAttempting).2)
    ∧ (clearCredentials 10 exampleAttempting).1._ssid = ""
    ∧ (clearCredentials 10 exampleAttempting).1._password = ""
    ∧ (clearCredentials 10 exampleAttempting).1._portalMode = true :=
  C14_bootstrap_ap_is_clearCredentials exampleRdJsonAp exampleFileManager 10
    exampleAttempting (by decide) (by decide) (by decide)

/-- C15: from every state, `loadNetworkConfigFromSD` returns false, keeps the
state and emits nothing when the SD card is not mounted, or the `.network`
file is empty or missing, or its lower-cased `wifi` value is neither `yes` nor
`ap`, or it is `yes` with an empty or missing `WiFiSSID`; it returns true
exactly in the two remaining cases. -/
theorem C15_unusable_bootstrap_ignored
    (rdJsonGetString : String → String → String → String) (fileManager : FileManager)
    (now : Nat) (s : WiFiManager) :
    ((fileManager.isSDCardOk = false
        ∨ (fileManager.getFileContents "sd" ".network" 2048).length = 0
        ∨ (toLowerCase
              (rdJsonGetString "wifi" "" (fileManager.getFileContents "sd" ".network" 2048))
            ≠ "yes"
          ∧ toLowerCase
              (rdJsonGetString "wifi" "" (fileManager.getFileContents "sd" ".network" 2048))
            ≠ "ap")
        ∨ (toLowerCase
              (rdJsonGetString "wifi" "" (fileManager.getFileContents "sd" ".network" 2048))
            = "yes"
          ∧ (rdJsonGetString "WiFiSSID" ""
              (fileManager.getFileContents "sd" ".network" 2048)).length = 0)) →
      loadNetworkConfigFromSD rdJsonGetString fileManager now s = (false, s, []))
    ∧ ((loadNetworkConfigFromSD rdJsonGetString fileManager now s).1 = true
      ↔ (fileManager.isSDCardOk = true
        ∧ (fileManager.getFileContents "sd" ".network" 2048).length ≠ 0
        ∧ ((toLowerCase
                (rdJsonGetString "wifi" "" (fileManager.getFileContents "sd" ".network" 2048))
              = "yes"
            ∧ (rdJsonGetString "WiFiSSID" ""
                (fileManager.getFileContents "sd" ".network" 2048)).length ≠ 0)
          ∨ toLowerCase
              (rdJsonGetString "wifi" "" (fileManager.getFileContents "sd" ".network" 2048))
            = "ap"))) := by
  unfold loadNetworkConfigFromSD
  by_cases hsd : fileManager.isSDCardOk = true
  swap
  · simp [hsd]
  by_cases hdoc : (fileManager.getFileContents "sd" ".network" 2048).length = 0
  · simp [hsd, hdoc]
  by_cases hyes : toLowerCase
      (rdJsonGetString "wifi" "" (fileManager.getFileContents "sd" ".network" 2048)) = "yes"
  · by_cases hssid : (rdJsonGetString "WiFiSSID" ""
        (fileManager.getFileContents "sd" ".network" 2048)).length = 0
    · simp [hsd, hdoc, hyes, hssid]
    · have hpos : 0 < (rdJsonGetString "WiFiSSID" ""
          (fileManager.getFileContents "sd" ".network" 2048)).length :=
        Nat.pos_of_ne_zero hssid
      simp [hsd, hdoc, hyes, hssid, hpos]
  · by_cases hap : toLowerCase
        (rdJsonGetString "wifi" "" (fileManager.getFileContents "sd" ".network" 2048)) = "ap"
    · simp [hsd, hdoc, hap]
    · simp [hsd, hdoc, hyes, hap]

/-- C15 at concrete inputs: an unmounted SD card is ignored, and the `wifi`
value `AP` on a mounted card is accepted. -/
theorem C15_unusable_bootstrap_ignored_witness :
    loadNetworkConfigFromSD exampleRdJsonAp
        { isSDCardOk := false, getFileContents := fun _ _ _ => "network file" } 10
        exampleAttempting
      = (false, exampleAttempting, [])
    ∧ (loadNetworkConfigFromSD exampleRdJsonAp exampleFileManager 10 exampleAttempting).1
      = true :=
  ⟨(C15_unusable_bootstrap_ignored exampleRdJsonAp
      { isSDCardOk := false, getFileContents := fun _ _ _ => "network file" } 10
      exampleAttempting).1 (Or.inl rfl),
    (C15_unusable_bootstrap_ignored exampleRdJsonAp exampleFileManager 10
      exampleAttempting).2.2 (by decide)⟩

/-- C16, as stated, fails: `disabledPending` is reached after `setup` with WiFi
disabled by `setCredentials(..., true)` at 100 ms; its restart is pending and
at 5000 ms the delay has long elapsed, yet `service` changes nothing and
does not restart the device. -/
theorem C16_counterexample_wifi_disabled :
    (setup disabledHwConfig (some exampleSysConfig) "sandBot" true "AA:BB:CC:DD:EE:FF"
        WiFiManager.new
      = some (disabledStart, []))
    ∧ (setCredentials "cafe" "secret" "" true 100 disabledStart).1 = disabledPending
    ∧ disabledPending._deviceRestartPending = true
    ∧ Utils.isTimeout 5000 disabledPending._deviceRestartMs DEVICE_RESTART_DELAY_MS = true
    ∧ service 5000 wl_status_t.WL_DISCONNECTED disabledPending = (disabledPending, [])
    ∧ Effect.espRestart ∉ (service 5000 wl_status_t.WL_DISCONNECTED disabledPending).2 := by
  decide

/-- C16, amended: on every manager with WiFi enabled whose restart is pending
and whose restart delay has elapsed, `service` restarts the device and clears
the pending flag, whatever the portal flag and the driver status; `service`
never restarts the device when no restart is pending; with WiFi disabled
`service` changes nothing and emits nothing. -/
theorem C16_deferred_restart_when_enabled (now : Nat) (status : wl_status_t)
    (s : WiFiManager) :
    (s._wifiEnabled = true → s._deviceRestartPending = true →
      Utils.isTimeout now s._deviceRestartMs DEVICE_RESTART_DELAY_MS = true →
      service now status s = ({ s with _deviceRestartPending := false }, [Effect.espRestart]))
    ∧ (s._deviceRestartPending = false → Effect.espRestart ∉ (service now status s).2)
    ∧ (s._wifiEnabled = false → service now status s = (s, [])) := by
  refine ⟨?_, ?_, ?_⟩
  · intro he hpend hto
    simp [service, he, hpend, hto]
  · intro hpend
    rw [espRestart_mem_service_iff]
    simp [hpend]
  · intro he
    simp [service, he]

/-- C16 amended, at concrete states: a pending restart fires in portal mode
with the link up, and nothing fires on `exampleAfterEvents`, which has no
restart pending. -/
theorem C16_deferred_restart_when_enabled_witness :
    service 5000 wl_status_t.WL_CONNECTED
        { exampleAfterEvents with _deviceRestartPending := true, _deviceRestartMs := 100 }
      = ({ exampleAfterEvents with _deviceRestartPending := false, _deviceRestartMs := 100 },
          [Effect.espRestart])
    ∧ Effect.espRestart ∉ (service 5000 wl_status_t.WL_CONNECTED exampleAfterEvents).2
    ∧ service 5000 wl_status_t.WL_DISCONNECTED disabledPending = (disabledPending, []) :=
  ⟨(C16_deferred_restart_when_enabled 5000 wl_status_t.WL_CONNECTED
      { exampleAfterEvents with _deviceRestartPending := true, _deviceRestartMs := 100 }).1
      (by decide) (by decide) (by decide),
    (C16_deferred_restart_when_enabled 5000 wl_status_t.WL_CONNECTED
      exampleAfterEvents).2.1 (by decide),
    (C16_deferred_restart_when_enabled 5000 wl_status_t.WL_DISCONNECTED
      disabledPending).2.2 (by decide)⟩

/-- C17: from every state and for all arguments, `setCredentials` ends out of
portal mode, issues neither `WiFi.begin` nor `WiFi.reconnect`, and keeps
`_lastWifiBeginAttemptMs`, `_wifiFirstBeginDone` and
`_connectionAttemptStartTime`; the failure count becomes 0 when the call
started in portal mode and is kept otherwise; without a restart request the
restart fields are kept. -/
theorem C17_setCredentials_exits_portal_no_reconnect (ssid pw hostname : String)
    (resetToImplement : Bool) (now : Nat) (s : WiFiManager) :
    (setCredentials ssid pw hostname resetToImplement now s).1._portalMode = false
    ∧ (∀ e ∈ (setCredentials ssid pw hostname resetToImplement now s).2,
        (∀ a b, e ≠ Effect.wifiBegin a b) ∧ e ≠ Effect.wifiReconnect)
    ∧ (setCredentials ssid pw hostname resetToImplement now s).1._lastWifiBeginAttemptMs
        = s._lastWifiBeginAttemptMs
    ∧ (setCredentials ssid pw hostname resetToImplement now s).1._wifiFirstBeginDone
        = s._wifiFirstBeginDone
    ∧ (setCredentials ssid pw hostname resetToImplement now s).1._connectionAttemptStartTime
        = s._connectionAttemptStartTime
    ∧ (setCredentials ssid pw hostname resetToImplement now s).1._connectionFailures
        = (if s._portalMode then 0 else s._connectionFailures)
    ∧ (resetToImplement = false →
        (setCredentials ssid pw hostname resetToImplement now s).1._deviceRestartPending
          = s._deviceRestartPending
        ∧ (setCredentials ssid pw hostname resetToImplement now s).1._deviceRestartMs
          = s._deviceRestartMs) := by
  unfold setCredentials stopPortalMode persistConfig
  by_cases hp : s._portalMode = true <;> cases resetToImplement <;>
    by_cases hc : s._pConfigBase = true <;> by_cases hl : s._pStatusLed = true <;>
    simp [hp, hc, hl]

/-- C18: from every state, when the SD card is mounted, the `.network` file has
content, its `wifi` value lower-cases to `yes` and its `WiFiSSID` is not
empty, `loadNetworkConfigFromSD` returns true, emits the effects of
`setCredentials` with the document's SSID, password and hostname and no
restart request, and ends in the state of that `setCredentials` call with, in
addition, failure count 0, attempt start time 0, last begin time 0 and the
first-begin flag cleared; the manager is out of portal mode and an empty
hostname keeps the existing one. -/
theorem C18_bootstrap_station_is_setCredentials_plus_reset
    (rdJsonGetString : String → String → String → String) (fileManager : FileManager)
    (now : Nat) (s : WiFiManager)
    (hsd : fileManager.isSDCardOk = true)
    (hdoc : (fileManager.getFileContents "sd" ".network" 2048).length ≠ 0)
    (hyes : toLowerCase
        (rdJsonGetString "wifi" "" (fileManager.getFileContents "sd" ".network" 2048))
      = "yes")
    (hssid : (rdJsonGetString "WiFiSSID" ""
        (fileManager.getFileContents "sd" ".network" 2048)).length ≠ 0) :
    loadNetworkConfigFromSD rdJsonGetString fileManager now s
      = (true,
          { (setCredentials
                (rdJsonGetString "WiFiSSID" ""
                  (fileManager.getFileContents "sd" ".network" 2048))
                (rdJsonGetString "WiFiPW" ""
                  (fileManager.getFileContents "sd" ".network" 2048))
                (rdJsonGetString "WiFiHostname" ""
                  (fileManager.getFileContents "sd" ".network" 2048))
                false now s).1 with
            _connectionFailures := 0
            _connectionAttemptStartTime := 0
            _lastWifiBeginAttemptMs := 0
            _wifiFirstBeginDone := false },
          (setCredentials
            (rdJsonGetString "WiFiSSID" ""
              (fileManager.getFileContents "sd" ".network" 2048))
            (rdJsonGetString "WiFiPW" ""
              (fileManager.getFileContents "sd" ".network" 2048))
            (rdJsonGetString "WiFiHostname" ""
              (fileManager.getFileContents "sd" ".network" 2048))
            false now s).2)
    ∧ (loadNetworkConfigFromSD rdJsonGetString fileManager now s).2.1._portalMode = false
    ∧ (rdJsonGetString "WiFiHostname" ""
          (fileManager.getFileContents "sd" ".network" 2048) = "" →
        (loadNetworkConfigFromSD rdJsonGetString fileManager now s).2.1._hostname
          = s._hostname) := by
  have hdoc1 : ((fileManager.getFileContents "sd" ".network" 2048).length == 0) = false := by
    simpa using hdoc
  have hpos : 0 < (rdJsonGetString "WiFiSSID" ""
      (fileManager.getFileContents "sd" ".network" 2048)).length :=
    Nat.pos_of_ne_zero hssid
  have hhost : ∀ h : String, (if h.length > 0 then h else s._hostname)
      = (if h.length == 0 then s._hostname else h) := by
    intro h
    by_cases hl : h.length = 0
    · simp [hl]
    · simp [hl, Nat.pos_of_ne_zero hl]
  unfold loadNetworkConfigFromSD setCredentials stopPortalMode
  simp only [hsd, hdoc1, hyes, hpos, hhost, Bool.not_true, Bool.false_eq_true, if_false,
    if_true, beq_self_eq_true]
  by_cases hp : s._portalMode = true <;> simp [hp] <;>
    · intro hempty hlen
      exact absurd (by simp [hempty]) hlen

/-- C18 at a concrete input: the document of `exampleRdJsonYes` loaded in the
portal-mode state `exampleAfterEvents`. -/
theorem C18_bootstrap_station_is_setCredentials_plus_reset_witness :
    (loadNetworkConfigFromSD exampleRdJsonYes exampleFileManager 10 exampleAfterEvents).1
      = true
    ∧ (loadNetworkConfigFromSD exampleRdJsonYes exampleFileManager 10
        exampleAfterEvents).2.1._ssid = "cafe"
    ∧ (loadNetworkConfigFromSD exampleRdJsonYes exampleFileManager 10
        exampleAfterEvents).2.1._portalMode = false
    ∧ (exampleRdJsonYes "WiFiHostname" ""
          (exampleFileManager.getFileContents "sd" ".network" 2048) = "" →
        (loadNetworkConfigFromSD exampleRdJsonYes exampleFileManager 10
          exampleAfterEvents).2.1._hostname = exampleAfterEvents._hostname) :=
  ⟨by decide, by decide,
    (C18_bootstrap_station_is_setCredentials_plus_reset exampleRdJsonYes exampleFileManager
      10 exampleAfterEvents (by decide) (by decide) (by decide) (by decide)).2⟩

/-- C19: on every registered manager, a disconnect event with status
`WL_CONNECTION_LOST` returns with the state unchanged, so the failure count,
the attempt start time and the portal flag are kept, and it issues
`WiFi.reconnect` exactly when the manager is not in portal mode. -/
theorem C19_connection_lost_is_transient (now : Nat) (mdnsOk : Bool) (s : WiFiManager)
    (hi : s._pInstance = true) :
    ∃ r, wiFiEventHandler WiFiEvent_t.SYSTEM_EVENT_STA_DISCONNECTED
          wl_status_t.WL_CONNECTION_LOST now mdnsOk s = some r
      ∧ r.1 = s
      ∧ r.1._connectionFailures = s._connectionFailures
      ∧ r.1._connectionAttemptStartTime = s._connectionAttemptStartTime
      ∧ r.1._portalMode = s._portalMode
      ∧ (Effect.wifiReconnect ∈ r.2 ↔ s._portalMode = false) := by
  refine ⟨(s, (if !s._portalMode then [Effect.wifiReconnect] else [])
      ++ (if s._pStatusLed then [Effect.statusLedSetCode 0] else [])), ?_, rfl, rfl, rfl, rfl, ?_⟩
  · simp [wiFiEventHandler, shouldCountFailure, reconnectAndReport, hi]
  · by_cases hp : s._portalMode = true <;> by_cases hl : s._pStatusLed = true <;>
      simp [hp, hl]

/-- C19 at concrete states: `exampleAttempting` (not in portal mode) gets a
reconnect request. -/
theorem C19_connection_lost_is_transient_witness :
    exampleAttempting._pInstance = true
    ∧ ∃ r, wiFiEventHandler WiFiEvent_t.SYSTEM_EVENT_STA_DISCONNECTED
          wl_status_t.WL_CONNECTION_LOST 9000 false exampleAttempting = some r
      ∧ r.1 = exampleAttempting
      ∧ r.1._connectionFailures = exampleAttempting._connectionFailures
      ∧ r.1._connectionAttemptStartTime = exampleAttempting._connectionAttemptStartTime
      ∧ r.1._portalMode = exampleAttempting._portalMode
      ∧ (Effect.wifiReconnect ∈ r.2 ↔ exampleAttempting._portalMode = false) :=
  ⟨by decide, C19_connection_lost_is_transient 9000 false exampleAttempting (by decide)⟩

theorem countP_isWifiBegin_startPortalMode (now : Nat) (s : WiFiManager) :
    (startPortalMode now s).2.countP isWifiBegin = 0 := by
  unfold startPortalMode
  by_cases hp : s._portalMode = true <;> by_cases hl : s._pStatusLed = true <;>
    simp only [hp, hl, if_true, if_false, Bool.false_eq_true] <;> rfl

theorem wifiBegin_not_mem_of_countP (l : List Effect) (h : l.countP isWifiBegin = 0)
    (a b : String) : Effect.wifiBegin a b ∉ l := by
  intro hmem
  rw [List.countP_eq_zero] at h
  exact h _ hmem rfl

theorem service_link_down (now : Nat) (status : wl_status_t) (s : WiFiManager)
    (he : s._wifiEnabled = true)
    (hr : (s._deviceRestartPending
      && Utils.isTimeout now s._deviceRestartMs DEVICE_RESTART_DELAY_MS) = false)
    (hp : s._portalMode = false) (hs : status ≠ wl_status_t.WL_CONNECTED) :
    service now status s
      = (if (attemptTimedOut now s
            && decide ((if attemptTimedOut now s then
                  { s with
                      _connectionFailures := s._connectionFailures + 1
                      _connectionAttemptStartTime := 0 }
                else s)._connectionFailures ≥ MAX_CONNECTION_FAILURES)) = true then
          startPortalMode now
            (if attemptTimedOut now s then
              { s with
                  _connectionFailures := s._connectionFailures + 1
                  _connectionAttemptStartTime := 0 }
            else s)
        else if Utils.isTimeout now s._lastWifiBeginAttemptMs
            (if s._wifiFirstBeginDone then TIME_BETWEEN_WIFI_BEGIN_ATTEMPTS_MS
              else TIME_BEFORE_FIRST_BEGIN_MS) = true then
          if s._ssid.length = 0 then
            startPortalMode now
              (if attemptTimedOut now s then
                { s with
                    _connectionFailures := s._connectionFailures + 1
                    _connectionAttemptStartTime := 0 }
              else s)
          else
            ({ (if attemptTimedOut now s then
                  { s with
                      _connectionFailures := s._connectionFailures + 1
                      _connectionAttemptStartTime := 0 }
                else s) with
                _lastWifiBeginAttemptMs := now
                _connectionAttemptStartTime := now
                _wifiFirstBeginDone := true },
              [Effect.wifiBegin s._ssid s._password, Effect.wifiSetHostname s._hostname])
        else
          (if attemptTimedOut now s then
              { s with
                  _connectionFailures := s._connectionFailures + 1
                  _connectionAttemptStartTime := 0 }
            else s, [])) := by
  have hne : (status != wl_status_t.WL_CONNECTED) = true := by simpa using hs
  unfold service
  simp only [he, hr, hp, hne, Bool.not_true, Bool.false_eq_true, if_false, if_true]
  by_cases ht : attemptTimedOut now s = true
  · simp only [ht, if_true, beq_iff_eq]
  · simp only [Bool.not_eq_true] at ht
    simp only [ht, Bool.false_eq_true, if_false, beq_iff_eq]

theorem countP_isWifiBegin_stopPortalMode (s : WiFiManager) :
    (stopPortalMode s).2.countP isWifiBegin = 0 := by
  unfold stopPortalMode
  by_cases hp : s._portalMode = true <;> by_cases hl : s._pStatusLed = true <;>
    simp only [hp, hl, if_true, if_false, Bool.false_eq_true, Bool.not_true, Bool.not_false]
      <;> rfl

theorem service_issues_begin (now : Nat) (status : wl_status_t) (s : WiFiManager)
    (he : s._wifiEnabled = true)
    (hr : ¬ (s._deviceRestartPending = true
      ∧ Utils.isTimeout now s._deviceRestartMs DEVICE_RESTART_DELAY_MS = true))
    (hp : s._portalMode = false) (hs : status ≠ wl_status_t.WL_CONNECTED)
    (hesc : ¬ (attemptTimedOut now s = true
      ∧ s._connectionFailures + 1 ≥ MAX_CONNECTION_FAILURES))
    (hssid : s._ssid.length ≠ 0)
    (hto : Utils.isTimeout now s._lastWifiBeginAttemptMs
      (if s._wifiFirstBeginDone then TIME_BETWEEN_WIFI_BEGIN_ATTEMPTS_MS
        else TIME_BEFORE_FIRST_BEGIN_MS) = true) :
    (service now status s).2
        = [Effect.wifiBegin s._ssid s._password, Effect.wifiSetHostname s._hostname]
    ∧ (service now status s).1._lastWifiBeginAttemptMs = now
    ∧ (service now status s).1._connectionAttemptStartTime = now
    ∧ (service now status s).1._wifiFirstBeginDone = true
    ∧ (service now status s).1._portalMode = false
    ∧ (service now status s).1._connectionFailures
        = s._connectionFailures + (if attemptTimedOut now s then 1 else 0) := by
  have hr1 : (s._deviceRestartPending
      && Utils.isTimeout now s._deviceRestartMs DEVICE_RESTART_DELAY_MS) = false := by
    simpa using hr
  rw [service_link_down now status s he hr1 hp hs]
  by_cases ht : attemptTimedOut now s = true
  · have hmax : ¬ s._connectionFailures + 1 ≥ MAX_CONNECTION_FAILURES := fun h => hesc ⟨ht, h⟩
    simp [ht, hmax, hto, hssid, hp]
  · simp only [Bool.not_eq_true] at ht
    simp [ht, hto, hssid, hp]

theorem service_issues_no_begin (now : Nat) (status : wl_status_t) (s : WiFiManager)
    (h : ¬ (s._wifiEnabled = true
      ∧ ¬ (s._deviceRestartPending = true
          ∧ Utils.isTimeout now s._deviceRestartMs DEVICE_RESTART_DELAY_MS = true)
      ∧ s._portalMode = false ∧ status ≠ wl_status_t.WL_CONNECTED
      ∧ ¬ (attemptTimedOut now s = true
          ∧ s._connectionFailures + 1 ≥ MAX_CONNECTION_FAILURES)
      ∧ s._ssid.length ≠ 0
      ∧ Utils.isTimeout now s._lastWifiBeginAttemptMs
          (if s._wifiFirstBeginDone then TIME_BETWEEN_WIFI_BEGIN_ATTEMPTS_MS
            else TIME_BEFORE_FIRST_BEGIN_MS) = true)) :
    (service now status s).2.countP isWifiBegin = 0 := by
  by_cases he : s._wifiEnabled = true
  swap
  · simp [service, he]
  by_cases hr : (s._deviceRestartPending
      && Utils.isTimeout now s._deviceRestartMs DEVICE_RESTART_DELAY_MS) = true
  · simp only [service, he, hr, Bool.not_true, Bool.false_eq_true, if_false, if_true]
    rfl
  by_cases hp : s._portalMode = true
  · simp only [service, he, hr, hp, PORTAL_TIMEOUT_MS, Bool.not_true, Bool.false_eq_true,
      if_false, if_true, gt_iff_lt, lt_self_iff_false, decide_False, Bool.false_and]
    rfl
  by_cases hs : status = wl_status_t.WL_CONNECTED
  · simp [service, he, hr, hp, hs]
  simp only [Bool.not_eq_true] at hr hp
  have hr2 : ¬ (s._deviceRestartPending = true
      ∧ Utils.isTimeout now s._deviceRestartMs DEVICE_RESTART_DELAY_MS = true) := by
    simpa using hr
  rw [service_link_down now status s he hr hp hs]
  by_cases hto : Utils.isTimeout now s._lastWifiBeginAttemptMs
      (if s._wifiFirstBeginDone then TIME_BETWEEN_WIFI_BEGIN_ATTEMPTS_MS
        else TIME_BEFORE_FIRST_BEGIN_MS) = true
  · by_cases hssid : s._ssid.length = 0
    · by_cases hesc : (attemptTimedOut now s
          && decide ((if attemptTimedOut now s then
                { s with
                    _connectionFailures := s._connectionFailures + 1
                    _connectionAttemptStartTime := 0 }
              else s)._connectionFailures ≥ MAX_CONNECTION_FAILURES)) = true
      · rw [if_pos hesc]
        exact countP_isWifiBegin_startPortalMode now _
      · rw [if_neg hesc, if_pos hto, if_pos hssid]
        exact countP_isWifiBegin_startPortalMode now _
    · have hesc : (attemptTimedOut now s
          && decide ((if attemptTimedOut now s then
                { s with
                    _connectionFailures := s._connectionFailures + 1
                    _connectionAttemptStartTime := 0 }
              else s)._connectionFailures ≥ MAX_CONNECTION_FAILURES)) = true := by
        by_contra hne
        apply h
        refine ⟨he, hr2, hp, hs, ?_, hssid, hto⟩
        rintro ⟨ht, hmax⟩
        apply hne
        simp [ht, hmax]
      rw [if_pos hesc]
      exact countP_isWifiBegin_startPortalMode now _
  · by_cases hesc : (attemptTimedOut now s
        && decide ((if attemptTimedOut now s then
              { s with
                  _connectionFailures := s._connectionFailures + 1
                  _connectionAttemptStartTime := 0 }
            else s)._connectionFailures ≥ MAX_CONNECTION_FAILURES)) = true
    · rw [if_pos hesc]
      exact countP_isWifiBegin_startPortalMode now _
    · rw [if_neg hesc, if_neg hto]
      rfl

theorem detectsTimeout_iff (now : Nat) (status : wl_status_t) (s : WiFiManager) :
    detectsTimeout now status s = true
      ↔ (s._wifiEnabled = true
        ∧ ¬ (s._deviceRestartPending = true
            ∧ Utils.isTimeout now s._deviceRestartMs DEVICE_RESTART_DELAY_MS = true)
        ∧ s._portalMode = false ∧ status ≠ wl_status_t.WL_CONNECTED
        ∧ attemptTimedOut now s = true) := by
  unfold detectsTimeout
  cases s._wifiEnabled <;> cases s._deviceRestartPending <;> cases s._portalMode <;>
    cases attemptTimedOut now s <;>
    cases Utils.isTimeout now s._deviceRestartMs DEVICE_RESTART_DELAY_MS <;> simp

/-- C21, as stated, fails: `exampleAttempting` (WiFi enabled, not in portal
mode, attempt started at 2001 ms) with the link down at 62002 ms: the call
counts the timeout, count 0 to 1, and issues `WiFi.begin` as well. -/
theorem C21_counterexample_timeout_and_begin_in_one_call :
    serviceRun [(2001, wl_status_t.WL_DISCONNECTED)] exampleStart = exampleAttempting
    ∧ exampleAttempting._wifiEnabled = true
    ∧ exampleAttempting._portalMode = false
    ∧ detectsTimeout 62002 wl_status_t.WL_DISCONNECTED exampleAttempting = true
    ∧ exampleAttempting._connectionFailures = 0
    ∧ (service 62002 wl_status_t.WL_DISCONNECTED exampleAttempting).1._connectionFailures = 1
    ∧ (service 62002 wl_status_t.WL_DISCONNECTED exampleAttempting).2
        = [Effect.wifiBegin "home" "", Effect.wifiSetHostname "sandBot"] := by
  decide

/-- C21, amended: a `service` call that counts an attempt timeout issues no
`WiFi.begin` and enters portal mode when the count reaches
`MAX_CONNECTION_FAILURES`; below the threshold it issues `WiFi.begin` in the
same call when the SSID is not empty and the begin interval has elapsed since
the last begin, and issues none otherwise. -/
theorem C21_timeout_and_begin_below_threshold (now : Nat) (status : wl_status_t)
    (s : WiFiManager) (hdet : detectsTimeout now status s = true) :
    (s._connectionFailures + 1 ≥ MAX_CONNECTION_FAILURES →
      (service now status s).2.countP isWifiBegin = 0
      ∧ (service now status s).1._portalMode = true)
    ∧ (s._connectionFailures + 1 < MAX_CONNECTION_FAILURES → s._ssid.length ≠ 0 →
        Utils.isTimeout now s._lastWifiBeginAttemptMs
            (if s._wifiFirstBeginDone then TIME_BETWEEN_WIFI_BEGIN_ATTEMPTS_MS
              else TIME_BEFORE_FIRST_BEGIN_MS) = true →
        (service now status s).2
            = [Effect.wifiBegin s._ssid s._password, Effect.wifiSetHostname s._hostname]
        ∧ (service now status s).1._connectionFailures = s._connectionFailures + 1)
    ∧ (s._connectionFailures + 1 < MAX_CONNECTION_FAILURES →
        ¬ (s._ssid.length ≠ 0
          ∧ Utils.isTimeout now s._lastWifiBeginAttemptMs
              (if s._wifiFirstBeginDone then TIME_BETWEEN_WIFI_BEGIN_ATTEMPTS_MS
                else TIME_BEFORE_FIRST_BEGIN_MS) = true) →
        (service now status s).2.countP isWifiBegin = 0) := by
  obtain ⟨he, hr, hp, hs, ht⟩ := (detectsTimeout_iff now status s).mp hdet
  refine ⟨?_, ?_, ?_⟩
  · intro hmax
    refine ⟨service_issues_no_begin now status s (fun h => h.2.2.2.2.1 ⟨ht, hmax⟩), ?_⟩
    have hr1 : (s._deviceRestartPending
        && Utils.isTimeout now s._deviceRestartMs DEVICE_RESTART_DELAY_MS) = false := by
      simpa using hr
    rw [service_link_down now status s he hr1 hp hs]
    simp [ht, hmax, startPortalMode, hp]
  · intro hlt hssid hto
    have h := service_issues_begin now status s he hr hp hs
      (fun h => absurd h.2 (not_le.mpr hlt)) hssid hto
    refine ⟨h.1, ?_⟩
    rw [h.2.2.2.2.2]
    simp [ht]
  · intro _ hno
    exact service_issues_no_begin now status s (fun h => hno ⟨h.2.2.2.2.2.1, h.2.2.2.2.2.2⟩)

/-- C21 amended, at a concrete state: `exampleAttempting` at 62002 ms. -/
theorem C21_timeout_and_begin_below_threshold_witness :
    detectsTimeout 62002 wl_status_t.WL_DISCONNECTED exampleAttempting = true
    ∧ (service 62002 wl_status_t.WL_DISCONNECTED exampleAttempting).2
        = [Effect.wifiBegin exampleAttempting._ssid exampleAttempting._password,
            Effect.wifiSetHostname exampleAttempting._hostname]
    ∧ (service 62002 wl_status_t.WL_DISCONNECTED exampleAttempting).1._connectionFailures
        = exampleAttempting._connectionFailures + 1 :=
  ⟨by decide,
    (C21_timeout_and_begin_below_threshold 62002 wl_status_t.WL_DISCONNECTED
      exampleAttempting (by decide)).2.1 (by decide) (by decide) (by decide)⟩

/-- C22, as stated, fails: `exampleRestartPending` (reached from `exampleStart`
by `setCredentials("home", "", "", true)` at 100 ms) meets every condition of
the claim at 5000 ms with the link down, yet `service` restarts the device
and issues no `WiFi.begin`. -/
theorem C22_counterexample_restart_ends_the_call :
    (setCredentials "home" "" "" true 100 exampleStart).1 = exampleRestartPending
    ∧ exampleRestartPending._wifiEnabled = true
    ∧ exampleRestartPending._portalMode = false
    ∧ attemptTimedOut 5000 exampleRestartPending = false
    ∧ exampleRestartPending._ssid.length ≠ 0
    ∧ Utils.isTimeout 5000 exampleRestartPending._lastWifiBeginAttemptMs
        (if exampleRestartPending._wifiFirstBeginDone then TIME_BETWEEN_WIFI_BEGIN_ATTEMPTS_MS
          else TIME_BEFORE_FIRST_BEGIN_MS) = true
    ∧ (service 5000 wl_status_t.WL_DISCONNECTED exampleRestartPending).2
        = [Effect.espRestart]
    ∧ Effect.wifiBegin exampleRestartPending._ssid exampleRestartPending._password
        ∉ (service 5000 wl_status_t.WL_DISCONNECTED exampleRestartPending).2 := by
  decide

/-- C22, amended: for every state and time, `service` issues
`WiFi.begin(_ssid, _password)` exactly when WiFi is enabled, no pending restart
is due in this call, the manager is not in portal mode, the driver is not
link-up, the call does not escalate to portal mode on a timeout, the SSID is
not empty and the begin interval has elapsed since the last begin; it then
ends with the last begin time and the attempt start time at `now` and the
first-begin flag set; every `WiFi.begin` it issues carries `_ssid` and
`_password`, and it issues at most one per call. -/
theorem C22_begin_issued_iff (now : Nat) (status : wl_status_t) (s : WiFiManager) :
    (Effect.wifiBegin s._ssid s._password ∈ (service now status s).2
      ↔ (s._wifiEnabled = true
        ∧ ¬ (s._deviceRestartPending = true
            ∧ Utils.isTimeout now s._deviceRestartMs DEVICE_RESTART_DELAY_MS = true)
        ∧ s._portalMode = false ∧ status ≠ wl_status_t.WL_CONNECTED
        ∧ ¬ (attemptTimedOut now s = true
            ∧ s._connectionFailures + 1 ≥ MAX_CONNECTION_FAILURES)
        ∧ s._ssid.length ≠ 0
        ∧ Utils.isTimeout now s._lastWifiBeginAttemptMs
            (if s._wifiFirstBeginDone then TIME_BETWEEN_WIFI_BEGIN_ATTEMPTS_MS
              else TIME_BEFORE_FIRST_BEGIN_MS) = true))
    ∧ (∀ a b, Effect.wifiBegin a b ∈ (service now status s).2 →
        a = s._ssid ∧ b = s._password
        ∧ (service now status s).1._lastWifiBeginAttemptMs = now
        ∧ (service now status s).1._connectionAttemptStartTime = now
        ∧ (service now status s).1._wifiFirstBeginDone = true)
    ∧ (service now status s).2.countP isWifiBegin ≤ 1 := by
  by_cases hc : (s._wifiEnabled = true
      ∧ ¬ (s._deviceRestartPending = true
          ∧ Utils.isTimeout now s._deviceRestartMs DEVICE_RESTART_DELAY_MS = true)
      ∧ s._portalMode = false ∧ status ≠ wl_status_t.WL_CONNECTED
      ∧ ¬ (attemptTimedOut now s = true
          ∧ s._connectionFailures + 1 ≥ MAX_CONNECTION_FAILURES)
      ∧ s._ssid.length ≠ 0
      ∧ Utils.isTimeout now s._lastWifiBeginAttemptMs
          (if s._wifiFirstBeginDone then TIME_BETWEEN_WIFI_BEGIN_ATTEMPTS_MS
            else TIME_BEFORE_FIRST_BEGIN_MS) = true)
  · obtain ⟨he, hr, hp, hs, hesc, hssid, hto⟩ := hc
    obtain ⟨h1, h2, h3, h4, -, -⟩ :=
      service_issues_begin now status s he hr hp hs hesc hssid hto
    refine ⟨?_, ?_, ?_⟩
    · rw [h1]
      simp [he, hr, hp, hs, hesc, hssid, hto]
    · intro a b hab
      rw [h1] at hab
      simp only [List.mem_cons, Effect.wifiBegin.injEq, List.mem_singleton, reduceCtorEq,
        or_false, List.not_mem_nil] at hab
      exact ⟨hab.1, hab.2, h2, h3, h4⟩
    · rw [h1]
      exact Nat.le_of_eq rfl
  · have h0 := service_issues_no_begin now status s hc
    refine ⟨?_, ?_, ?_⟩
    · constructor
      · intro hmem
        exact absurd hmem (wifiBegin_not_mem_of_countP _ h0 _ _)
      · intro h
        exact absurd h hc
    · intro a b hab
      exact absurd hab (wifiBegin_not_mem_of_countP _ h0 a b)
    · rw [h0]
      exact Nat.zero_le 1

/-- C22 amended, at concrete states: `exampleStart` at 2001 ms issues the
begin, `exampleRestartPending` at 5000 ms does not. -/
theorem C22_begin_issued_iff_witness :
    Effect.wifiBegin exampleStart._ssid exampleStart._password
        ∈ (service 2001 wl_status_t.WL_DISCONNECTED exampleStart).2
    ∧ Effect.wifiBegin exampleRestartPending._ssid exampleRestartPending._password
        ∉ (service 5000 wl_status_t.WL_DISCONNECTED exampleRestartPending).2 :=
  ⟨(C22_begin_issued_iff 2001 wl_status_t.WL_DISCONNECTED exampleStart).1.mpr (by decide),
    fun h =>
      absurd ((C22_begin_issued_iff 5000 wl_status_t.WL_DISCONNECTED
        exampleRestartPending).1.mp h).2.1 (by decide)⟩

theorem portal_startPortalMode (now : Nat) (s : WiFiManager) :
    (startPortalMode now s).1._portalMode = true := by
  unfold startPortalMode
  by_cases hp : s._portalMode = true <;> simp [hp]

theorem portal_clearCredentials (now : Nat) (s : WiFiManager) :
    (clearCredentials now s).1._portalMode = true := by
  unfold clearCredentials
  exact portal_startPortalMode now _

theorem load_station_fields (rdJsonGetString : String → String → String → String)
    (fileManager : FileManager) (now : Nat) (s : WiFiManager)
    (hsd : fileManager.isSDCardOk = true)
    (hdoc : (fileManager.getFileContents "sd" ".network" 2048).length ≠ 0)
    (hyes : toLowerCase
        (rdJsonGetString "wifi" "" (fileManager.getFileContents "sd" ".network" 2048))
      = "yes")
    (hssid : (rdJsonGetString "WiFiSSID" ""
        (fileManager.getFileContents "sd" ".network" 2048)).length ≠ 0) :
    (loadNetworkConfigFromSD rdJsonGetString fileManager now s).1 = true
    ∧ (loadNetworkConfigFromSD rdJsonGetString fileManager now s).2.1._ssid
        = rdJsonGetString "WiFiSSID" "" (fileManager.getFileContents "sd" ".network" 2048)
    ∧ (loadNetworkConfigFromSD rdJsonGetString fileManager now s).2.1._password
        = rdJsonGetString "WiFiPW" "" (fileManager.getFileContents "sd" ".network" 2048)
    ∧ (loadNetworkConfigFromSD rdJsonGetString fileManager now s).2.1._portalMode = false
    ∧ (loadNetworkConfigFromSD rdJsonGetString fileManager now s).2.1._connectionFailures = 0
    ∧ (loadNetworkConfigFromSD rdJsonGetString fileManager now s).2.1._connectionAttemptStartTime
        = 0
    ∧ (loadNetworkConfigFromSD rdJsonGetString fileManager now s).2.1._lastWifiBeginAttemptMs
        = 0
    ∧ (loadNetworkConfigFromSD rdJsonGetString fileManager now s).2.1._wifiFirstBeginDone
        = false
    ∧ (loadNetworkConfigFromSD rdJsonGetString fileManager now s).2.1._wifiEnabled
        = s._wifiEnabled
    ∧ (loadNetworkConfigFromSD rdJsonGetString fileManager now s).2.1._deviceRestartPending
        = s._deviceRestartPending
    ∧ (loadNetworkConfigFromSD rdJsonGetString fileManager now s).2.1._deviceRestartMs
        = s._deviceRestartMs
    ∧ (loadNetworkConfigFromSD rdJsonGetString fileManager now s).2.1._hostname
        = (if (rdJsonGetString "WiFiHostname" ""
              (fileManager.getFileContents "sd" ".network" 2048)).length > 0 then
            rdJsonGetString "WiFiHostname" ""
              (fileManager.getFileContents "sd" ".network" 2048)
          else s._hostname) := by
  have hdoc1 : ((fileManager.getFileContents "sd" ".network" 2048).length == 0) = false := by
    simpa using hdoc
  have hpos : 0 < (rdJsonGetString "WiFiSSID" ""
      (fileManager.getFileContents "sd" ".network" 2048)).length :=
    Nat.pos_of_ne_zero hssid
  unfold loadNetworkConfigFromSD stopPortalMode
  simp only [hsd, hdoc1, hyes, hpos, Bool.not_true, Bool.false_eq_true, if_false,
    if_true, beq_self_eq_true]
  by_cases hp : s._portalMode = true <;> simp [hp]

/-- C24, as stated, fails: after `setup`, the station-mode document of
`exampleRdJsonYes` is loaded at 10 ms (result true, SSID `cafe`); the next
`service` call, at 1000 ms with WiFi enabled and the link down, issues
nothing. -/
theorem C24_counterexample_service_before_first_begin_delay :
    loadNetworkConfigFromSD exampleRdJsonYes exampleFileManager 10 exampleStart
      = (true, exampleLoaded,
          [Effect.setConfigData
              "\x7b\"WiFiSSID\":\"cafe\",\"WiFiPW\":\"secret\",\"WiFiHostname\":\"sandBot\"\x7d",
            Effect.writeConfig])
    ∧ exampleLoaded._wifiEnabled = true
    ∧ service 1000 wl_status_t.WL_DISCONNECTED exampleLoaded = (exampleLoaded, []) := by
  decide

/-- C24, amended: after `loadNetworkConfigFromSD` has loaded a station-mode
document (`wifi` lower-cases to `yes`, non-empty SSID) in any state, the next
`service` call with WiFi enabled, the link down and no pending restart due
issues `WiFi.begin` with the document's SSID and password when it is made
more than `TIME_BEFORE_FIRST_BEGIN_MS` after time 0, however recently a
previous attempt was issued, and issues no `WiFi.begin` when it is made
earlier. -/
theorem C24_bootstrap_tried_after_first_begin_delay
    (rdJsonGetString : String → String → String → String) (fileManager : FileManager)
    (now now2 : Nat) (status : wl_status_t) (s : WiFiManager)
    (hsd : fileManager.isSDCardOk = true)
    (hdoc : (fileManager.getFileContents "sd" ".network" 2048).length ≠ 0)
    (hyes : toLowerCase
        (rdJsonGetString "wifi" "" (fileManager.getFileContents "sd" ".network" 2048))
      = "yes")
    (hssid : (rdJsonGetString "WiFiSSID" ""
        (fileManager.getFileContents "sd" ".network" 2048)).length ≠ 0)
    (he : s._wifiEnabled = true)
    (hr : ¬ (s._deviceRestartPending = true
      ∧ Utils.isTimeout now2 s._deviceRestartMs DEVICE_RESTART_DELAY_MS = true))
    (hs : status ≠ wl_status_t.WL_CONNECTED) :
    (TIME_BEFORE_FIRST_BEGIN_MS < now2 →
      Effect.wifiBegin
          (rdJsonGetString "WiFiSSID" "" (fileManager.getFileContents "sd" ".network" 2048))
          (rdJsonGetString "WiFiPW" "" (fileManager.getFileContents "sd" ".network" 2048))
        ∈ (service now2 status
            (loadNetworkConfigFromSD rdJsonGetString fileManager now s).2.1).2)
    ∧ (now2 ≤ TIME_BEFORE_FIRST_BEGIN_MS →
        (service now2 status
          (loadNetworkConfigFromSD rdJsonGetString fileManager now s).2.1).2.countP
            isWifiBegin = 0) := by
  obtain ⟨-, h2, h3, h4, -, h6, h7, h8, h9, h10, h11, -⟩ :=
    load_station_fields rdJsonGetString fileManager now s hsd hdoc hyes hssid
  have hnot : attemptTimedOut now2
      (loadNetworkConfigFromSD rdJsonGetString fileManager now s).2.1 = false := by
    simp [attemptTimedOut, h6]
  constructor
  · intro hnow
    have hb := service_issues_begin now2 status
      (loadNetworkConfigFromSD rdJsonGetString fileManager now s).2.1
      (h9.trans he) (by rw [h10, h11]; exact hr) h4 hs (by simp [hnot])
      (by rw [h2]; exact hssid)
      (by simpa [h7, h8, Utils.isTimeout] using hnow)
    rw [hb.1, h2, h3]
    exact List.mem_cons_self _ _
  · intro hnow
    apply service_issues_no_begin
    intro hc
    have hto := hc.2.2.2.2.2.2
    simp only [h7, h8, Utils.isTimeout, Bool.false_eq_true, if_false, zero_add,
      decide_eq_true_eq] at hto
    exact absurd hto (not_lt.mpr hnow)

/-- C24 amended, at a concrete run: the document of `exampleRdJsonYes` loaded on
`exampleAttempting`, whose last begin was at 2001 ms; `service` at 2500 ms
issues `WiFi.begin("cafe", "secret")`. -/
theorem C24_bootstrap_tried_after_first_begin_delay_witness :
    exampleAttempting._lastWifiBeginAttemptMs = 2001
    ∧ Effect.wifiBegin "cafe" "secret"
        ∈ (service 2500 wl_status_t.WL_DISCONNECTED
            (loadNetworkConfigFromSD exampleRdJsonYes exampleFileManager 2400
              exampleAttempting).2.1).2 :=
  ⟨by decide,
    (C24_bootstrap_tried_after_first_begin_delay exampleRdJsonYes exampleFileManager 2400
      2500 wl_status_t.WL_DISCONNECTED exampleAttempting (by decide) (by decide) (by decide)
      (by decide) (by decide) (by decide) (by decide)).1 (by decide)⟩

theorem Json.readString_plain (l rest : List Char) (h : l.all Json.isPlain = true) :
    Json.readString Json.Mode.plain (l ++ Json.quote :: rest) = some (l, rest) := by
  induction l with
  | nil => simp [Json.readString]
  | cons c cs ih =>
    simp only [List.all_cons, Bool.and_eq_true] at h
    obtain ⟨hc, hcs⟩ := h
    simp only [Json.isPlain, Bool.and_eq_true, bne_iff_ne, ne_eq, Bool.not_eq_true',
      decide_eq_false_iff_not] at hc
    obtain ⟨⟨h1, h2⟩, h3⟩ := hc
    simp [Json.readString, h1, h2, h3, ih hcs]

theorem Json.expect_head (c : Char) (rest : List Char) (h : Json.isWhitespace c = false) :
    Json.expect c (c :: rest) = some rest := by
  simp [Json.expect, List.dropWhile, h]

theorem Json.expect_other (c d : Char) (rest : List Char)
    (h : Json.isWhitespace d = false) (hne : d ≠ c) :
    Json.expect c (d :: rest) = none := by
  simp [Json.expect, List.dropWhile, h, hne]

theorem Json.readMember_plain (key value rest : List Char)
    (hk : key.all Json.isPlain = true) (hv : value.all Json.isPlain = true) :
    Json.readMember
        (Json.quote :: (key ++ Json.quote :: ':' :: Json.quote :: (value ++ Json.quote :: rest)))
      = some ((String.mk key, String.mk value), rest) := by
  unfold Json.readMember
  rw [Json.expect_head Json.quote _ (by decide)]
  simp only [Option.bind_eq_bind, Option.some_bind]
  rw [Json.readString_plain key _ hk]
  simp only [Option.some_bind]
  rw [Json.expect_head ':' _ (by decide)]
  simp only [Option.some_bind]
  rw [Json.expect_head Json.quote _ (by decide)]
  simp only [Option.some_bind]
  rw [Json.readString_plain value _ hv]
  simp only [Option.some_bind]

theorem formConfigStr_data (s : WiFiManager) :
    (formConfigStr s).data
      = Json.openBrace :: Json.quote :: ("WiFiSSID".data ++ Json.quote :: ':' :: Json.quote
          :: (s._ssid.data ++ Json.quote :: ',' :: Json.quote
          :: ("WiFiPW".data ++ Json.quote :: ':' :: Json.quote
          :: (s._password.data ++ Json.quote :: ',' :: Json.quote
          :: ("WiFiHostname".data ++ Json.quote :: ':' :: Json.quote
          :: (s._hostname.data ++ [Json.quote, Json.closeBrace])))))) := by
  unfold formConfigStr
  simp only [String.data_append, List.append_assoc]
  rfl

theorem Json.readObject_formConfigStr (s : WiFiManager)
    (h1 : s._ssid.data.all Json.isPlain = true)
    (h2 : s._password.data.all Json.isPlain = true)
    (h3 : s._hostname.data.all Json.isPlain = true) :
    Json.readObject (formConfigStr s)
      = some [("WiFiSSID", s._ssid), ("WiFiPW", s._password), ("WiFiHostname", s._hostname)] := by
  have hlen : ∃ k, (formConfigStr s).length = k + 3 := by
    refine ⟨(formConfigStr s).length - 3, ?_⟩
    have : 3 ≤ (formConfigStr s).length := by
      simp only [String.length, formConfigStr_data, List.length_cons, List.length_append]
      omega
    omega
  obtain ⟨k, hk⟩ := hlen
  unfold Json.readObject
  rw [hk, formConfigStr_data, Json.expect_head Json.openBrace _ (by decide)]
  simp only [Option.bind_eq_bind, Option.some_bind]
  rw [Json.expect_other Json.closeBrace Json.quote _ (by decide) (by decide)]
  simp only [Json.readMembers]
  rw [Json.readMember_plain "WiFiSSID".data s._ssid.data _ (by decide) h1]
  simp only [Option.bind_eq_bind, Option.some_bind]
  rw [Json.expect_head ',' _ (by decide)]
  simp only []
  rw [Json.readMember_plain "WiFiPW".data s._password.data _ (by decide) h2]
  simp only [Option.some_bind]
  rw [Json.expect_head ',' _ (by decide)]
  simp only []
  rw [Json.readMember_plain "WiFiHostname".data s._hostname.data _ (by decide) h3]
  simp only [Option.some_bind]
  rw [Json.expect_other ',' Json.closeBrace _ (by decide) (by decide),
    Json.expect_head Json.closeBrace _ (by decide)]
  rfl

theorem formConfigStr_json_when_plain (s : WiFiManager) (hwConfig : ConfigBase)
    (defaultHostname : String) (pStatusLed : Bool) (macAddress : String)
    (h1 : s._ssid.data.all Json.isPlain = true)
    (h2 : s._password.data.all Json.isPlain = true)
    (h3 : s._hostname.data.all Json.isPlain = true) :
    Json.readObject (formConfigStr s)
      = some [("WiFiSSID", s._ssid), ("WiFiPW", s._password), ("WiFiHostname", s._hostname)]
    ∧ ∃ r, setup hwConfig (some (storedConfig (formConfigStr s))) defaultHostname pStatusLed
          macAddress WiFiManager.new = some r
        ∧ r.1._ssid = s._ssid ∧ r.1._password = s._password ∧ r.1._hostname = s._hostname := by
  have hread := Json.readObject_formConfigStr s h1 h2 h3
  refine ⟨hread, _, rfl, ?_, ?_, ?_⟩
  · simp only [storedConfig, hread]
    rfl
  · simp only [storedConfig, hread]
    rfl
  · simp only [storedConfig, hread]
    rfl

/-- C25, the code at a failing input: `setCredentials` with the SSID `my"net`
persists the text of `formConfigStr`, which is not a JSON object (the quote
inside the SSID ends the string early), and `setup` on a store holding that
text reads back an empty SSID.  Whatever the reader, the text cannot be read
back in general: two managers with different SSID and password have the same
`formConfigStr`. -/
theorem C25_code_quote_breaks_persisted_document :
    setCredentials "my\"net" "secret" "" false 100 exampleStart
      = (exampleQuotedSsid,
          [Effect.setConfigData (formConfigStr exampleQuotedSsid), Effect.writeConfig])
    ∧ formConfigStr exampleQuotedSsid
      = "\x7b\"WiFiSSID\":\"my\"net\",\"WiFiPW\":\"secret\",\"WiFiHostname\":\"sandBot\"\x7d"
    ∧ Json.readObject (formConfigStr exampleQuotedSsid) = none
    ∧ (setup exampleHwConfig (some (storedConfig (formConfigStr exampleQuotedSsid))) "sandBot"
          true "AA:BB:CC:DD:EE:FF" WiFiManager.new).map (fun r => r.1._ssid)
      = some ""
    ∧ formConfigStr { exampleStart with _ssid := "a\",\"WiFiPW\":\"b", _password := "c" }
      = formConfigStr { exampleStart with _ssid := "a", _password := "b\",\"WiFiPW\":\"c" } := by
  decide

theorem portalEntry_count_kept (now : Nat) (status : wl_status_t)
    (mdnsOk : Bool) (s : WiFiManager) (hp : s._portalMode = false) :
    (startPortalMode now s).1._portalMode = true
    ∧ (startPortalMode now s).1._connectionFailures = s._connectionFailures
    ∧ ((service now status s).1._portalMode = true →
        (service now status s).1._connectionFailures
          = s._connectionFailures + (if detectsTimeout now status s then 1 else 0))
    ∧ (∀ r, wiFiEventHandler WiFiEvent_t.SYSTEM_EVENT_STA_DISCONNECTED status now mdnsOk s
          = some r → r.1._portalMode = true →
        r.1._connectionFailures = s._connectionFailures + 1
        ∧ MAX_CONNECTION_FAILURES ≤ r.1._connectionFailures) := by
  have hstart : ∀ s1 : WiFiManager, s1._portalMode = false →
      (startPortalMode now s1).1._connectionFailures = s1._connectionFailures := by
    intro s1 h1
    simp [startPortalMode, h1]
  refine ⟨by simp [startPortalMode, hp], hstart s hp, ?_, ?_⟩
  · unfold service detectsTimeout
    by_cases he : s._wifiEnabled = true
    swap
    · simp [he, hp]
    by_cases hr : (s._deviceRestartPending
        && Utils.isTimeout now s._deviceRestartMs DEVICE_RESTART_DELAY_MS) = true
    · simp [he, hr, hp]
    by_cases hs : status = wl_status_t.WL_CONNECTED
    · simp [he, hr, hp, hs]
    have hne : (status != wl_status_t.WL_CONNECTED) = true := by simpa using hs
    simp only [Bool.not_eq_true] at hr
    by_cases ht : attemptTimedOut now s = true
    · simp only [he, hr, hp, hne, ht, Bool.not_true, Bool.not_false, Bool.false_eq_true,
        Bool.true_and, Bool.and_true, if_false, if_true]
      split_ifs
      all_goals
        intro h
        first
        | exact hstart _ rfl
        | exact hstart _ hp
        | rfl
    · simp only [Bool.not_eq_true] at ht
      simp only [he, hr, hp, hne, ht, Bool.not_true, Bool.not_false, Bool.false_eq_true,
        Bool.true_and, Bool.and_false, Bool.false_and, if_false, add_zero]
      split_ifs
      all_goals
        intro h
        first
        | exact hstart _ rfl
        | exact hstart _ hp
        | rfl
  · intro r hr hrp
    simp only [wiFiEventHandler] at hr
    split_ifs at hr with hc hcount hmax
    · simp only [Option.some.injEq] at hr
      subst hr
      have hf := hstart { s with
          _connectionFailures := s._connectionFailures + 1
          _connectionAttemptStartTime := 0 } hp
      exact ⟨hf, hf ▸ hmax⟩
    · obtain ⟨h1, -, -⟩ := reconnectAndReport_some _ r hr
      rw [h1] at hrp
      simp [hp] at hrp
    · obtain ⟨h1, -, -⟩ := reconnectAndReport_some _ r hr
      rw [h1] at hrp
      simp [hp] at hrp
    · obtain ⟨h1, -, -⟩ := reconnectAndReport_some _ r hr
      rw [h1] at hrp
      simp [hp] at hrp

theorem failures_clearCredentials (now : Nat) (s : WiFiManager) :
    (clearCredentials now s).1._connectionFailures = 0 := by
  unfold clearCredentials startPortalMode
  by_cases hp : s._portalMode = true <;> simp [hp]

theorem portalEntry_wiFiEventHandler_other (event : WiFiEvent_t) (status : wl_status_t)
    (now : Nat) (mdnsOk : Bool) (s : WiFiManager) (r : WiFiManager × List Effect)
    (hp : s._portalMode = false)
    (hev : event ≠ WiFiEvent_t.SYSTEM_EVENT_STA_DISCONNECTED)
    (hr : wiFiEventHandler event status now mdnsOk s = some r) :
    r.1._portalMode = false := by
  cases event with
  | SYSTEM_EVENT_STA_GOT_IP =>
    simp only [wiFiEventHandler, Option.some.injEq] at hr
    subst hr
    by_cases hi : s._pInstance = true <;> simp [hi, hp]
  | other code =>
    simp only [wiFiEventHandler, Option.some.injEq] at hr
    subst hr
    exact hp
  | SYSTEM_EVENT_STA_DISCONNECTED => exact absurd rfl hev

theorem portalEntry_loadNetworkConfigFromSD
    (rdJsonGetString : String → String → String → String) (fileManager : FileManager)
    (now : Nat) (s : WiFiManager) (hp : s._portalMode = false)
    (h : (loadNetworkConfigFromSD rdJsonGetString fileManager now s).2.1._portalMode = true) :
    (loadNetworkConfigFromSD rdJsonGetString fileManager now s).2.1._connectionFailures = 0
    ∧ loadNetworkConfigFromSD rdJsonGetString fileManager now s
      = (true, (clearCredentials now s).1, (clearCredentials now s).2) := by
  unfold loadNetworkConfigFromSD at h ⊢
  simp only [] at h ⊢
  split_ifs at h ⊢
  all_goals
    first
    | exact ⟨failures_clearCredentials now s, rfl⟩
    | (simp [hp, stopPortalMode] at h)

/-- C11, amended: from every state out of portal mode, each operation that can
enter portal mode leaves the failure count as follows.  A direct
`startPortalMode` enters portal mode and keeps the count; a `service` call that
ends in portal mode ends with the old count plus one if it detected an attempt
timeout, and the old count otherwise; a driver event that ends in portal mode
ends with the old count plus one, which is at least `MAX_CONNECTION_FAILURES`;
`clearCredentials` enters portal mode with the count 0; a
`loadNetworkConfigFromSD` that ends in portal mode is the `clearCredentials` of
an access-point document and ends with the count 0; `setCredentials` and
`stopPortalMode` never end in portal mode. -/
theorem C11_portal_entry_failure_count (now : Nat) (status : wl_status_t)
    (event : WiFiEvent_t) (mdnsOk : Bool)
    (rdJsonGetString : String → String → String → String) (fileManager : FileManager)
    (ssid pw hostname : String) (resetToImplement : Bool)
    (s : WiFiManager) (hp : s._portalMode = false) :
    ((startPortalMode now s).1._portalMode = true
      ∧ (startPortalMode now s).1._connectionFailures = s._connectionFailures)
    ∧ ((service now status s).1._portalMode = true →
        (service now status s).1._connectionFailures
          = s._connectionFailures + (if detectsTimeout now status s then 1 else 0))
    ∧ (∀ r, wiFiEventHandler event status now mdnsOk s = some r → r.1._portalMode = true →
        r.1._connectionFailures = s._connectionFailures + 1
        ∧ MAX_CONNECTION_FAILURES ≤ r.1._connectionFailures)
    ∧ ((clearCredentials now s).1._portalMode = true
      ∧ (clearCredentials now s).1._connectionFailures = 0)
    ∧ ((loadNetworkConfigFromSD rdJsonGetString fileManager now s).2.1._portalMode = true →
        (loadNetworkConfigFromSD rdJsonGetString fileManager now s).2.1._connectionFailures = 0
        ∧ loadNetworkConfigFromSD rdJsonGetString fileManager now s
          = (true, (clearCredentials now s).1, (clearCredentials now s).2))
    ∧ (setCredentials ssid pw hostname resetToImplement now s).1._portalMode = false
    ∧ (stopPortalMode s).1._portalMode = false := by
  obtain ⟨h1, h2, h3, h4⟩ := portalEntry_count_kept now status mdnsOk s hp
  refine ⟨⟨h1, h2⟩, h3, ?_, ⟨portal_clearCredentials now s, failures_clearCredentials now s⟩,
    portalEntry_loadNetworkConfigFromSD rdJsonGetString fileManager now s hp, ?_, ?_⟩
  · intro r hr hrp
    by_cases hev : event = WiFiEvent_t.SYSTEM_EVENT_STA_DISCONNECTED
    · subst hev
      exact h4 r hr hrp
    · have := portalEntry_wiFiEventHandler_other event status now mdnsOk s r hp hev hr
      rw [hrp] at this
      exact absurd this (by decide)
  · unfold setCredentials
    cases resetToImplement <;> simp [hp]
  · simp [stopPortalMode, hp]

/-- C11 amended, at a concrete state: from `exampleTwoFailures` a direct
`startPortalMode` keeps the count 2, a third "SSID not found" disconnect ends
with 3, and `clearCredentials` ends with 0. -/
theorem C11_portal_entry_failure_count_witness :
    exampleTwoFailures._portalMode = false
    ∧ exampleTwoFailures._connectionFailures = 2
    ∧ ((startPortalMode 2300 exampleTwoFailures).1._portalMode = true
      ∧ (startPortalMode 2300 exampleTwoFailures).1._connectionFailures
          = exampleTwoFailures._connectionFailures)
    ∧ (exampleAfterEvents._connectionFailures = exampleTwoFailures._connectionFailures + 1
      ∧ MAX_CONNECTION_FAILURES ≤ exampleAfterEvents._connectionFailures)
    ∧ ((clearCredentials 2300 exampleTwoFailures).1._portalMode = true
      ∧ (clearCredentials 2300 exampleTwoFailures).1._connectionFailures = 0) :=
  ⟨by decide, by decide,
    (C11_portal_entry_failure_count 2300 wl_status_t.WL_NO_SSID_AVAIL
      WiFiEvent_t.SYSTEM_EVENT_STA_DISCONNECTED false exampleRdJsonAp exampleFileManager
      "cafe" "secret" "" false exampleTwoFailures (by decide)).1,
    (C11_portal_entry_failure_count 2300 wl_status_t.WL_NO_SSID_AVAIL
      WiFiEvent_t.SYSTEM_EVENT_STA_DISCONNECTED false exampleRdJsonAp exampleFileManager
      "cafe" "secret" "" false exampleTwoFailures (by decide)).2.2.1
      (exampleAfterEvents,
        [Effect.wifiDisconnect, Effect.wifiMode wifi_mode_t.WIFI_AP,
          Effect.wifiSoftAP "sandBot-DDEEFF" "SecureThis", Effect.dnsStart,
          Effect.statusLedSetCode 2])
      (by decide) (by decide),
    (C11_portal_entry_failure_count 2300 wl_status_t.WL_NO_SSID_AVAIL
      WiFiEvent_t.SYSTEM_EVENT_STA_DISCONNECTED false exampleRdJsonAp exampleFileManager
      "cafe" "secret" "" false exampleTwoFailures (by decide)).2.2.2.1⟩

end WiFiManager
